import Mathlib

/-!
# ZRTPCPP: the ZID cache record, the ErrorACK packet, the demo host and the engine

A shallow embedding of

* `ZIDRecordFile` (`src/zrtp/ZIDRecordFile.cpp`): the record of retained secrets kept
  per peer ZID, its validity intervals and its flag word;
* the default constructor of `ZrtpPacketErrorAck` (`src/zrtp/ZrtpPacketErrorAck.cpp`);
* the message callbacks and `initCache` of the demo (`src/demo/zrtptestMulti.cpp`);
* the Hello packet, the configuration and the protocol engine that
  `src/unittests/ZrtpHello_test.cpp` exercises, modelled from the spec.

Conventions of the embedding.

* A byte is a `Fin 256`; a byte array is a list of bytes.  `memcpy dst src n`
  overwrites the first `n` bytes of `dst` with the first `n` bytes of `src`.
* Machine integers are mathematical integers.  `objectBytes` gives the object
  representation (two's complement, host byte order) of an integer object and
  `objectValue` reads it back; `timeCast` is the conversion to the host time
  type (wrap-around in the width of that type).
* The host is a parameter: the width of the time type (`sizeof(time_t) == 4` or
  not) and the byte order, since the code copies native objects with `memcpy`.
* `time(nullptr)` is an explicit argument `now` of the functions that call it.
* The argument `data` of `setNewRs1` is a pointer: a `DataPointer` names the bytes it
  points to, outside the record or inside it, and they are read when the code reads them.
* Output to `cout` and calls of callbacks are returned as lists, in order.
-/

namespace ZRTP

/-! ## Constants of `ZIDRecordFile.h` -/

/-- Modelled from the spec: `ZIDRecordFile.h` is not among the source files; the
record layout of the spec gives `rs1Data(32)`, `rs2Data(32)`, `mitmKey(32)`. -/
def RS_LENGTH : Nat := 32

/-- Modelled from the spec: `ZIDRecordFile.h` is not among the source files; the
record layout of the spec gives `rs1Interval(8)`, `rs2Interval(8)`. -/
def TIME_LENGTH : Nat := 8

/-- Modelled from the spec: `ZIDRecordFile.h` is not among the source files; the
record layout of the spec gives `zid(12)`. -/
def IDENTIFIER_LEN : Nat := 12

/-- Modelled from the spec: flag bit `RS1Valid=1` (the header declaring it is missing). -/
def RS1Valid : Nat := 0x1

/-- Modelled from the spec: flag bit `RS2Valid=2` (the header declaring it is missing). -/
def RS2Valid : Nat := 0x2

/-- Modelled from the spec: flag bit `MITMKeyAvailable=4` (the header declaring it is missing). -/
def MITMKeyAvailable : Nat := 0x4

/-- Modelled from the spec: flag bit `OwnZIDRecord=8` (the header declaring it is missing). -/
def OwnZIDRecord : Nat := 0x8

/-- Modelled from the spec: flag bit `SASVerified=0x10` (the header declaring it is missing). -/
def SASVerified : Nat := 0x10

/-! ## Bytes, objects and the host -/

/-- One byte of memory. -/
abbrev Byte := Fin 256

/-- The host the code is compiled for: whether `sizeof(time_t) == 4`, and the byte order
of its integer objects. -/
structure Host where
  time32 : Bool
  bigEndian : Bool
deriving DecidableEq, Repr

/-- The value of `sizeof(time_t)` on the host. -/
def sizeofTime (h : Host) : Nat := if h.time32 then 4 else 8

/-- The C library `memcpy(dst, src, n)`: the first `n` bytes of `dst` are replaced by the
first `n` bytes of `src`. -/
def memcpy (dst src : List Byte) (n : Nat) : List Byte :=
  src.take n ++ dst.drop n

/-- The `n` low-order bytes of `u`, least significant first. -/
def toBytesLE : Nat → Nat → List Byte
  | 0, _ => []
  | n + 1, u => Fin.ofNat (u % 256) :: toBytesLE n (u / 256)

/-- The unsigned number whose bytes, least significant first, are `bs`. -/
def ofBytesLE : List Byte → Nat
  | [] => 0
  | b :: bs => b.val + 256 * ofBytesLE bs

/-- The unsigned `bits`-bit pattern of an integer (two's complement). -/
def toUnsigned (bits : Nat) (v : Int) : Nat := (v % 2 ^ bits).toNat

/-- The signed reading of an unsigned `bits`-bit pattern (two's complement). -/
def toSigned (bits : Nat) (u : Nat) : Int :=
  if u < 2 ^ (bits - 1) then (u : Int) else (u : Int) - 2 ^ bits

/-- Object representation of a signed integer object of `size` bytes holding `v`:
two's complement, in the byte order of the host. -/
def objectBytes (h : Host) (size : Nat) (v : Int) : List Byte :=
  let le := toBytesLE size (toUnsigned (8 * size) v)
  if h.bigEndian then le.reverse else le

/-- The value of a signed integer object of `size` bytes whose object representation
is `bs`. -/
def objectValue (h : Host) (size : Nat) (bs : List Byte) : Int :=
  let le := if h.bigEndian then bs.reverse else bs
  toSigned (8 * size) (ofBytesLE le % 2 ^ (8 * size))

/-- Conversion of an integer to the host time type `time_t`; also the result of `time_t`
arithmetic, which wraps around in the width of the type. -/
def timeCast (h : Host) (x : Int) : Int :=
  toSigned (8 * sizeofTime h) (toUnsigned (8 * sizeofTime h) x)

/-- The integer `x` is a value of the host time type. -/
def inTimeRange (h : Host) (x : Int) : Prop :=
  -(2 ^ (8 * sizeofTime h - 1)) ≤ x ∧ x < 2 ^ (8 * sizeofTime h - 1)

instance (h : Host) (x : Int) : Decidable (inTimeRange h x) := by
  unfold inTimeRange; infer_instance

/-! ## The record -/

/-- The record held by a `ZIDRecordFile` (member `record`). -/
structure ZIDRecord where
  identifier : List Byte
  flags : Nat
  rs1Interval : List Byte
  rs1Data : List Byte
  rs2Interval : List Byte
  rs2Data : List Byte
  mitmKey : List Byte
deriving DecidableEq, Repr

/-- Every array of the record has the size its declaration gives it, and the flag word
is a 32-bit word. -/
def ZIDRecord.WellFormed (r : ZIDRecord) : Prop :=
  r.identifier.length = IDENTIFIER_LEN ∧ r.flags < 2 ^ 32 ∧
  r.rs1Interval.length = TIME_LENGTH ∧ r.rs1Data.length = RS_LENGTH ∧
  r.rs2Interval.length = TIME_LENGTH ∧ r.rs2Data.length = RS_LENGTH ∧
  r.mitmKey.length = RS_LENGTH

instance (r : ZIDRecord) : Decidable r.WellFormed := by
  unfold ZIDRecord.WellFormed; infer_instance

/-- A freshly zeroed record: every byte and the flag word are 0. -/
def zeroRecord : ZIDRecord :=
  { identifier := List.replicate IDENTIFIER_LEN 0
    flags := 0
    rs1Interval := List.replicate TIME_LENGTH 0
    rs1Data := List.replicate RS_LENGTH 0
    rs2Interval := List.replicate TIME_LENGTH 0
    rs2Data := List.replicate RS_LENGTH 0
    mitmKey := List.replicate RS_LENGTH 0 }

/-! ## Flag accessors -/

/-- The C expression `~x` on a 32-bit word. -/
def bitNot32 (x : Nat) : Nat := 0xFFFFFFFF ^^^ x

/-- `record.flags |= RS1Valid`. -/
def setRs1Valid (r : ZIDRecord) : ZIDRecord := { r with flags := r.flags ||| RS1Valid }

/-- `record.flags &= ~RS1Valid`. -/
def resetRs1Valid (r : ZIDRecord) : ZIDRecord :=
  { r with flags := r.flags &&& bitNot32 RS1Valid }

/-- `(record.flags & RS1Valid) == RS1Valid`. -/
def isRs1Valid (r : ZIDRecord) : Bool := (r.flags &&& RS1Valid) == RS1Valid

/-- `record.flags |= RS2Valid`. -/
def setRs2Valid (r : ZIDRecord) : ZIDRecord := { r with flags := r.flags ||| RS2Valid }

/-- `record.flags &= ~RS2Valid`. -/
def resetRs2Valid (r : ZIDRecord) : ZIDRecord :=
  { r with flags := r.flags &&& bitNot32 RS2Valid }

/-- `(record.flags & RS2Valid) == RS2Valid`. -/
def isRs2Valid (r : ZIDRecord) : Bool := (r.flags &&& RS2Valid) == RS2Valid

/-- `record.flags |= MITMKeyAvailable`. -/
def setMITMKeyAvailable (r : ZIDRecord) : ZIDRecord :=
  { r with flags := r.flags ||| MITMKeyAvailable }

/-- `record.flags &= ~MITMKeyAvailable`. -/
def resetMITMKeyAvailable (r : ZIDRecord) : ZIDRecord :=
  { r with flags := r.flags &&& bitNot32 MITMKeyAvailable }

/-- `(record.flags & MITMKeyAvailable) == MITMKeyAvailable`. -/
def isMITMKeyAvailable (r : ZIDRecord) : Bool :=
  (r.flags &&& MITMKeyAvailable) == MITMKeyAvailable

/-- `record.flags = OwnZIDRecord`. -/
def setOwnZIDRecord (r : ZIDRecord) : ZIDRecord := { r with flags := OwnZIDRecord }

/-- `record.flags = 0`. -/
def resetOwnZIDRecord (r : ZIDRecord) : ZIDRecord := { r with flags := 0 }

/-- `record.flags == OwnZIDRecord`: no other flag allowed if own ZID. -/
def isOwnZIDRecord (r : ZIDRecord) : Bool := r.flags == OwnZIDRecord

/-- `record.flags |= SASVerified`. -/
def setSasVerified (r : ZIDRecord) : ZIDRecord := { r with flags := r.flags ||| SASVerified }

/-- `record.flags &= ~SASVerified`. -/
def resetSasVerified (r : ZIDRecord) : ZIDRecord :=
  { r with flags := r.flags &&& bitNot32 SASVerified }

/-- `(record.flags & SASVerified) == SASVerified`. -/
def isSasVerified (r : ZIDRecord) : Bool := (r.flags &&& SASVerified) == SASVerified

/-! ## Data accessors -/

/-- `getIdentifier()`: the identifier array. -/
def getIdentifier (r : ZIDRecord) : List Byte := r.identifier

/-- `getRs1()`: the rs1 array. -/
def getRs1 (r : ZIDRecord) : List Byte := r.rs1Data

/-- `getRs2()`: the rs2 array. -/
def getRs2 (r : ZIDRecord) : List Byte := r.rs2Data

/-- `getMiTMData()`: the MiTM key array. -/
def getMiTMData (r : ZIDRecord) : List Byte := r.mitmKey

/-! ## Retained secrets and their validity -/

/-- The value `validThru` that `setNewRs1` computes from `expire` and the clock. -/
def newValidThru (h : Host) (now expire : Int) : Int :=
  if expire = -1 then -1
  else if expire ≤ 0 then 0
  else timeCast h (now + expire)

/-- The bytes `setNewRs1` copies into `record.rs1Interval` for a given `validThru`: on a
host with `sizeof(time_t) == 4` those of `long long temp = validThru`, else those of
`validThru` itself. -/
def intervalBytes (h : Host) (validThru : Int) : List Byte :=
  if sizeofTime h = 4 then
    let temp : Int := validThru
    objectBytes h 8 temp
  else
    objectBytes h (sizeofTime h) validThru

/-- The argument `const unsigned char* data` of `setNewRs1`: a pointer to 32 readable
bytes, either outside the record (with the bytes found there) or one of the 32-byte
arrays of the record itself, as `getRs2()` and `getMiTMData()` return them.  A pointer
to `rs1Data` itself is left out: the `memcpy` into `rs1Data` would then overlap its
source, which the C library leaves undefined. -/
inductive DataPointer where
  | external (bytes : List Byte)
  | rs2Data
  | mitmKey
deriving DecidableEq, Repr

/-- The bytes found through a `DataPointer` when the record is in state `r`. -/
def dataAt (r : ZIDRecord) : DataPointer → List Byte
  | .external bytes => bytes
  | .rs2Data => r.rs2Data
  | .mitmKey => r.mitmKey

/-- `ZIDRecordFile::setNewRs1(data, expire)`, called when `time(nullptr)` is `now`.  The
bytes of `data` are read when the third `memcpy` runs, after the shift. -/
def setNewRs1 (h : Host) (now : Int) (r : ZIDRecord) (data : DataPointer) (expire : Int) :
    ZIDRecord :=
  -- shift RS1 data into RS2 position
  let r := { r with rs2Data := memcpy r.rs2Data r.rs1Data RS_LENGTH }
  let r := { r with rs2Interval := memcpy r.rs2Interval r.rs1Interval TIME_LENGTH }
  -- set new RS1 data
  let r := { r with rs1Data := memcpy r.rs1Data (dataAt r data) RS_LENGTH }
  let validThru := newValidThru h now expire
  let r := { r with rs1Interval := memcpy r.rs1Interval (intervalBytes h validThru) TIME_LENGTH }
  setRs1Valid (resetRs2Valid r)

/-- The `validThru` that `isRs1NotExpired` / `isRs2NotExpired` read from an interval
array: through a `long long temp` when `sizeof(time_t) == 4`, else directly. -/
def readValidThru (h : Host) (interval : List Byte) : Int :=
  if sizeofTime h = 4 then
    let temp := objectValue h 8 (memcpy (List.replicate 8 0) interval TIME_LENGTH)
    timeCast h temp
  else
    objectValue h (sizeofTime h)
      (memcpy (List.replicate (sizeofTime h) 0) interval TIME_LENGTH)

/-- The decision both expiry queries take on `validThru` and the current time. -/
def notExpired (current validThru : Int) : Bool :=
  if validThru = -1 then true
  else if validThru = 0 then false
  else decide (current ≤ validThru)

/-- `ZIDRecordFile::isRs1NotExpired()`, called when `time(nullptr)` is `now`. -/
def isRs1NotExpired (h : Host) (now : Int) (r : ZIDRecord) : Bool :=
  let current := now
  let validThru := readValidThru h r.rs1Interval
  notExpired current validThru

/-- `ZIDRecordFile::isRs2NotExpired()`, called when `time(NULL)` is `now`. -/
def isRs2NotExpired (h : Host) (now : Int) (r : ZIDRecord) : Bool :=
  let current := now
  let validThru := readValidThru h r.rs2Interval
  notExpired current validThru

/-- `ZIDRecordFile::setMiTMData(data)`. -/
def setMiTMData (r : ZIDRecord) (data : List Byte) : ZIDRecord :=
  setMITMKeyAvailable { r with mitmKey := memcpy r.mitmKey data RS_LENGTH }

/-- `ZIDRecordFile::setZid(zid)`. -/
def setZid (r : ZIDRecord) (zid : List Byte) : ZIDRecord :=
  { r with identifier := memcpy r.identifier zid IDENTIFIER_LEN }

/-! ## The ErrorACK packet (`src/zrtp/ZrtpPacketErrorAck.cpp`) -/

/-- Modelled from the spec: `zrtpPacket.h` is not among the source files; every ZRTP
message is a sequence of 4-byte words. -/
def ZRTP_WORD_SIZE : Nat := 4

/-- Modelled from the spec: `zrtpPacket.h` is not among the source files; the message
type is 8 ASCII bytes, space-padded. -/
def TYPE_SIZE : Nat := 8

/-- Modelled from the spec: `zrtpPacket.h` is not among the source files; the value of
`sizeof(zrtpPacketHeader_t)`, the 12-byte message header: preamble `0x505a` (2B), length
in words (2B), message type (8B). -/
def sizeofZrtpPacketHeader : Nat := 2 + 2 + TYPE_SIZE

/-- Modelled from the spec: `zrtpPacket.h` is not among the source files; the value of
`sizeof(ErrorAckPacket_t)`: the message header followed by the trailing 4-byte CRC. -/
def sizeofErrorAckPacket : Nat := sizeofZrtpPacketHeader + ZRTP_WORD_SIZE

/-- The bytes of an ASCII string. -/
def asciiBytes (s : String) : List Byte := s.toList.map (fun c => Fin.ofNat c.toNat)

/-- Modelled from the spec: `ZrtpTextData.h` is not among the source files; the message
type of the ErrorACK message is `"ErrorACK"`. -/
def ErrorAckMsg : List Byte := asciiBytes "ErrorACK"

/-- Modelled from the spec: the preamble `0x505a` every message header starts with. -/
def zrtpId : Nat := 0x505a

/-- The bytes of the 16-bit object that holds `zrtpHtons(v)`: `v` in network byte order,
most significant byte first (`osSpecifics.h`). -/
def zrtpHtons (v : Nat) : List Byte := [Fin.ofNat (v / 256 % 256), Fin.ofNat (v % 256)]

/-- The value `zrtpNtohs` gives for the 16-bit object whose bytes are `bs`
(`osSpecifics.h`). -/
def zrtpNtohs (bs : List Byte) : Nat :=
  match bs with
  | [hi, lo] => hi.val * 256 + lo.val
  | _ => 0

/-- Store of the bytes `src` at offset `off` of the buffer `buf`. -/
def storeAt (buf : List Byte) (off : Nat) (src : List Byte) : List Byte :=
  buf.take off ++ src ++ buf.drop (off + src.length)

/-- Modelled from the spec: `ZrtpPacketBase::setZrtpId()` (header not among the source
files) stores the preamble in the first two bytes of the message header. -/
def setZrtpId (packet : List Byte) : List Byte := storeAt packet 0 (zrtpHtons zrtpId)

/-- Modelled from the spec: `ZrtpPacketBase::setLength(len)` (header not among the source
files) stores the length in words in bytes 2 and 3 of the message header. -/
def setLength (packet : List Byte) (len : Nat) : List Byte := storeAt packet 2 (zrtpHtons len)

/-- Modelled from the spec: `ZrtpPacketBase::getLength()` (header not among the source
files) reads the length in words from bytes 2 and 3 of the message header. -/
def getLength (packet : List Byte) : Nat := zrtpNtohs ((packet.drop 2).take 2)

/-- Modelled from the spec: `ZrtpPacketBase::setMessageType(msg)` (header not among the
source files) copies the 8 bytes of the message type into bytes 4 to 11 of the header. -/
def setMessageType (packet : List Byte) (msg : List Byte) : List Byte :=
  storeAt packet 4 (msg.take TYPE_SIZE)

/-- Modelled from the spec: `ZrtpPacketBase::getMessageType()` (header not among the
source files) returns bytes 4 to 11 of the message header. -/
def getMessageType (packet : List Byte) : List Byte := (packet.drop 4).take TYPE_SIZE

/-- The default constructor `ZrtpPacketErrorAck::ZrtpPacketErrorAck()`; `data` is the
content of the member `data` (an `ErrorAckPacket_t`) before the constructor runs, the
result its content afterwards. -/
def ZrtpPacketErrorAck (data : List Byte) : List Byte :=
  let data := setZrtpId data
  let data := setLength data ((sizeofErrorAckPacket / ZRTP_WORD_SIZE) - 1)
  setMessageType data ErrorAckMsg

/-! ## The demo host (`src/demo/zrtptestMulti.cpp`) -/

/-- The severities of `GnuZrtpCodes::MessageSeverity` the demo distinguishes. -/
inductive MessageSeverity where
  | Info
  | Warning
  | Severe
  | ZrtpError
deriving DecidableEq, Repr

/-- A `std::map<int32, std::string *>` of the demo, as the list of its entries. -/
abbrev MessageMap := List (Int × String)

/-- The member call `map.insert(pair(key, text))`: an entry whose key is present already is
not replaced. -/
def mapInsert (m : MessageMap) (key : Int) (text : String) : MessageMap :=
  if (m.lookup key).isSome then m else m ++ [(key, text)]

/-- The expression `map[key]`: the text stored under `key`, `none` being the null pointer
obtained for a key without entry. -/
def mapAt (m : MessageMap) (key : Int) : Option String := m.lookup key

/-- The values of the ZRTP error subcodes of `GnuZrtpCodes` (declared in `ZrtpCodes.h`,
which is not among the source files). -/
structure ZrtpErrorCodes where
  MalformedPacket : Int
  CriticalSWError : Int
  UnsuppZRTPVersion : Int
  HelloCompMismatch : Int
  UnsuppHashType : Int
  UnsuppCiphertype : Int
  UnsuppPKExchange : Int
  UnsuppSRTPAuthTag : Int
  UnsuppSASScheme : Int
  NoSharedSecret : Int
  DHErrorWrongPV : Int
  DHErrorWrongHVI : Int
  SASuntrustedMiTM : Int
  ConfirmHMACWrong : Int
  NonceReused : Int
  EqualZIDHello : Int
  GoCleatNotAllowed : Int

/-- The map `zrtpMap` as the constructor of `MyUserCallback` fills it. -/
def zrtpMapOf (c : ZrtpErrorCodes) : MessageMap :=
  let m : MessageMap := []
  let m := mapInsert m c.MalformedPacket "Malformed packet (CRC OK, but wrong structure)"
  let m := mapInsert m c.CriticalSWError "Critical software error"
  let m := mapInsert m c.UnsuppZRTPVersion "Unsupported ZRTP version"
  let m := mapInsert m c.HelloCompMismatch "Hello components mismatch"
  let m := mapInsert m c.UnsuppHashType "Hash type not supported"
  let m := mapInsert m c.UnsuppCiphertype "Cipher type not supported"
  let m := mapInsert m c.UnsuppPKExchange "Public key exchange not supported"
  let m := mapInsert m c.UnsuppSRTPAuthTag "SRTP auth. tag not supported"
  let m := mapInsert m c.UnsuppSASScheme "SAS scheme not supported"
  let m := mapInsert m c.NoSharedSecret "No shared secret available, DH mode required"
  let m := mapInsert m c.DHErrorWrongPV "DH Error: bad pvi or pvr ( == 1, 0, or p-1)"
  let m := mapInsert m c.DHErrorWrongHVI "DH Error: hvi != hashed data"
  let m := mapInsert m c.SASuntrustedMiTM "Received relayed SAS from untrusted MiTM"
  let m := mapInsert m c.ConfirmHMACWrong "Auth. Error: Bad Confirm pkt HMAC"
  let m := mapInsert m c.NonceReused "Nonce reuse"
  let m := mapInsert m c.EqualZIDHello "Equal ZIDs in Hello"
  mapInsert m c.GoCleatNotAllowed "GoClear packet received, but not allowed"

/-- The error subcodes with the values RFC 6189, section 5.9, gives them. -/
def rfc6189ErrorCodes : ZrtpErrorCodes :=
  { MalformedPacket := 0x10, CriticalSWError := 0x20, UnsuppZRTPVersion := 0x30,
    HelloCompMismatch := 0x40, UnsuppHashType := 0x51, UnsuppCiphertype := 0x52,
    UnsuppPKExchange := 0x53, UnsuppSRTPAuthTag := 0x54, UnsuppSASScheme := 0x55,
    NoSharedSecret := 0x56, DHErrorWrongPV := 0x61, DHErrorWrongHVI := 0x62,
    SASuntrustedMiTM := 0x63, ConfirmHMACWrong := 0x70, NonceReused := 0x80,
    EqualZIDHello := 0x90, GoCleatNotAllowed := 0x100 }

/-- The state of a `MyUserCallback` that its message callbacks read: the static maps and
the text put in front of every line. -/
structure MyUserCallback where
  infoMap : MessageMap
  warningMap : MessageMap
  severeMap : MessageMap
  zrtpMap : MessageMap
  pfx : String

/-- The statement `subCode *= -1` on an `int32_t`. -/
def negateInt32 (subCode : Int) : Int := toSigned 32 (toUnsigned 32 (subCode * -1))

/-- What `cout << prefix << *msg << endl` writes when `msg` is not null, nothing else. -/
def printMessage (pfx : String) (msg : Option String) : List String :=
  match msg with
  | some text => [pfx, text, "\n"]
  | none => []

/-- The part of the message callbacks taken for severity `ZrtpError`: what is written to
`cout`, as the list of the strings written. -/
def showZrtpError (cb : MyUserCallback) (subCode : Int) : List String :=
  if subCode < 0 then
    -- received an error packet from peer
    let subCode := negateInt32 subCode
    [cb.pfx, "Received error packet: "] ++ printMessage cb.pfx (mapAt cb.zrtpMap subCode)
  else
    [cb.pfx, "Sent error packet: "] ++ printMessage cb.pfx (mapAt cb.zrtpMap subCode)

/-- `MyUserCallbackMulti::showMessage(sev, subCode)`: what is written to `cout`.  The four
`if` statements test `sev` against four different values, so one of them runs. -/
def showMessageMulti (cb : MyUserCallback) (sev : MessageSeverity) (subCode : Int) :
    List String :=
  match sev with
  | .Info => printMessage cb.pfx (mapAt cb.infoMap subCode)
  | .Warning => printMessage cb.pfx (mapAt cb.warningMap subCode)
  | .Severe => printMessage cb.pfx (mapAt cb.severeMap subCode)
  | .ZrtpError => showZrtpError cb subCode

/-- `MyUserCallback::showMessage(sev, subCode)`: what is written to `cout`.  For severity
`Info` with subcode `InfoSecureStateOn` the callback also starts the multi-stream test
and may send a SAS relay packet; `secureOn` stands for the lines written there. -/
def showMessage (cb : MyUserCallback) (secureOn : Int → List String)
    (sev : MessageSeverity) (subCode : Int) : List String :=
  match sev with
  | .Info => printMessage cb.pfx (mapAt cb.infoMap subCode) ++ secureOn subCode
  | .Warning => printMessage cb.pfx (mapAt cb.warningMap subCode)
  | .Severe => printMessage cb.pfx (mapAt cb.severeMap subCode)
  | .ZrtpError => showZrtpError cb subCode

/-- `MyUserCallback::zrtpNegotiationFailed(sev, subCode)`: what is written to `cout`;
`none` when the callback dereferences the null pointer it found in `severeMap`. -/
def zrtpNegotiationFailed (cb : MyUserCallback) (sev : MessageSeverity) (subCode : Int) :
    Option (List String) :=
  if sev = .ZrtpError then
    some (showZrtpError cb subCode)
  else
    match mapAt cb.severeMap subCode with
    | some text => some [cb.pfx, text, "\n"]
    | none => none

/-- A callback object with the error texts of the demo under the RFC 6189 subcodes. -/
def sampleCallback : MyUserCallback :=
  { infoMap := [], warningMap := [], severeMap := [],
    zrtpMap := zrtpMapOf rfc6189ErrorCodes, pfx := "TX: " }

/-- A call of a member of the `ZIDCache` that `initCache` works on. -/
inductive CacheCall where
  | getFileName
  | close
  | openOn (name : String)
deriving DecidableEq, Repr

/-- The object a `std::shared_ptr<ZIDCache>` returned by `initCache` points to: nothing,
the cache that was passed in, or the `ZIDCacheFile` made by `initCache`. -/
inductive CachePointer where
  | empty
  | passed
  | created
deriving DecidableEq, Repr

/-- The file name `initCache` uses: the one given, or `.GNUZRTP.zid` in the directory
`HOME` names, or in the current directory without `HOME`. -/
def cacheFileName (home : Option String) (zidFilename : Option String) : String :=
  match zidFilename with
  | some name => name
  | none =>
    let baseDir := match home with
      | some dir => dir ++ "/."
      | none => "."
    baseDir ++ "GNUZRTP.zid"

/-- The function `initCache(zidFilename, cache)` of the demo.  `home` is the value of
`getenv("HOME")`, `openResult name` the value `open` returns for `name`, `cache` the
name `getFileName()` gives for the cache passed in (`none` for a null pointer).  The
result is the pointer returned and the member calls made, in order. -/
def initCache (home : Option String) (openResult : String → Int)
    (zidFilename : Option String) (cache : Option String) :
    CachePointer × List CacheCall :=
  let zidFilename := cacheFileName home zidFilename
  match cache with
  | some fileName =>
    if fileName = zidFilename then
      (.passed, [.getFileName])
    else if openResult zidFilename < 0 then
      (.empty, [.getFileName, .close, .openOn zidFilename])
    else
      (.passed, [.getFileName, .close, .openOn zidFilename])
  | none =>
    if openResult zidFilename < 0 then
      (.empty, [.openOn zidFilename])
    else
      (.created, [.openOn zidFilename])

/-! ## The Hello packet and the configuration (modelled from the spec)

`ZrtpConfigure`, `ZrtpPacketHello` and the engine `ZRtp` are used by
`src/unittests/ZrtpHello_test.cpp`; their code is not among the source files. -/

/-- Modelled from the spec: `ZrtpConfigure` (code not among the source files), the
configuration object with its ordered preference lists of 4-character algorithm tags:
hash list, cipher list, pubkey list, sas list, auth-tag list. -/
structure ZrtpConfigure where
  hashes : List String
  ciphers : List String
  pubKeys : List String
  sasTypes : List String
  authLengths : List String
deriving DecidableEq, Repr

/-- Modelled from the spec: the default-constructed `ZrtpConfigure` (code not among the
source files) holds the mandatory-to-implement algorithms only: hash `S256`, cipher
`AES1`, key-exchange `DH3k` + `Mult`, SAS `B32 `, auth-tag `HS32` + `HS80`. -/
def defaultZrtpConfigure : ZrtpConfigure :=
  { hashes := ["S256"]
    ciphers := ["AES1"]
    pubKeys := ["DH3k", "Mult"]
    sasTypes := ["B32 "]
    authLengths := ["HS32", "HS80"] }

/-- Modelled from the spec: `ZrtpPacketHello` (code not among the source files): the
length field of the header in words, the message type, and the ordered algorithm lists
of the Hello parameters. -/
structure ZrtpPacketHello where
  length : Nat
  messageType : String
  hashes : List String
  ciphers : List String
  pubKeys : List String
  sasTypes : List String
  authLengths : List String
deriving DecidableEq, Repr

/-- Modelled from the spec: the words of a Hello that do not depend on the algorithm
lists: message header (12 bytes), version string (4 bytes), client ID (16 bytes), H3 (32
bytes), ZID (12 bytes), the word of flags and list sizes, and the HMAC truncated to 8
bytes; the CRC word is not counted. -/
def helloFixedWords : Nat := 3 + 1 + 4 + 8 + 3 + 1 + 2

/-- Modelled from the spec: the length in words of a Hello that carries the given
algorithm lists, one word per 4-byte tag, header included, CRC not included. -/
def helloWords (hashes ciphers pubKeys sasTypes authLengths : List String) : Nat :=
  helloFixedWords + hashes.length + ciphers.length + pubKeys.length + sasTypes.length
    + authLengths.length

/-- Modelled from the spec: `ZrtpPacketHello::configureHello(config)` (code not among the
source files) builds the Hello that advertises the lists of the configuration in their
order of preference. -/
def configureHello (config : ZrtpConfigure) : ZrtpPacketHello :=
  { length := helloWords config.hashes config.ciphers config.pubKeys config.sasTypes
      config.authLengths
    messageType := "Hello   "
    hashes := config.hashes
    ciphers := config.ciphers
    pubKeys := config.pubKeys
    sasTypes := config.sasTypes
    authLengths := config.authLengths }

/-- Modelled from the spec: `getNumHashes()`. -/
def getNumHashes (hp : ZrtpPacketHello) : Nat := hp.hashes.length

/-- Modelled from the spec: `getNumCiphers()`. -/
def getNumCiphers (hp : ZrtpPacketHello) : Nat := hp.ciphers.length

/-- Modelled from the spec: `getNumPubKeys()`. -/
def getNumPubKeys (hp : ZrtpPacketHello) : Nat := hp.pubKeys.length

/-- Modelled from the spec: `getNumSas()`. -/
def getNumSas (hp : ZrtpPacketHello) : Nat := hp.sasTypes.length

/-- Modelled from the spec: `getNumAuth()`. -/
def getNumAuth (hp : ZrtpPacketHello) : Nat := hp.authLengths.length

/-- Modelled from the spec: `getHashType(n)`, the tag at position `n`. -/
def getHashType (hp : ZrtpPacketHello) (n : Nat) : Option String := hp.hashes.get? n

/-- Modelled from the spec: `getCipherType(n)`, the tag at position `n`. -/
def getCipherType (hp : ZrtpPacketHello) (n : Nat) : Option String := hp.ciphers.get? n

/-- Modelled from the spec: `getPubKeyType(n)`, the tag at position `n`. -/
def getPubKeyType (hp : ZrtpPacketHello) (n : Nat) : Option String := hp.pubKeys.get? n

/-- Modelled from the spec: `getSasType(n)`, the tag at position `n`. -/
def getSasType (hp : ZrtpPacketHello) (n : Nat) : Option String := hp.sasTypes.get? n

/-- Modelled from the spec: `getAuthLen(n)`, the tag at position `n`. -/
def getAuthLen (hp : ZrtpPacketHello) (n : Nat) : Option String := hp.authLengths.get? n

/-- Modelled from the spec: `isLengthOk()` (code not among the source files): the length
field of the header matches the length the list sizes of the packet give. -/
def isLengthOk (hp : ZrtpPacketHello) : Bool :=
  hp.length == helloWords hp.hashes hp.ciphers hp.pubKeys hp.sasTypes hp.authLengths

/-! ## The protocol engine (modelled from the spec) -/

/-- Modelled from the spec: the message types of the wire codec. -/
inductive MessageType where
  | Hello
  | HelloACK
  | Commit
  | DHPart1
  | DHPart2
  | Confirm1
  | Confirm2
  | Conf2ACK
  | Error
  | ErrorACK
deriving DecidableEq, Repr

/-- Modelled from the spec: the states of the state machine, with the state in which an
ErrorACK is awaited and the terminal state. -/
inductive ZrtpState where
  | Initial
  | Detect
  | AckDetected
  | AckSent
  | WaitCommit
  | CommitSent
  | WaitDHPart2
  | WaitConfirm1
  | WaitConfirm2
  | WaitConf2Ack
  | SecureState
  | WaitErrorAck
  | Terminal
deriving DecidableEq, Repr

/-- Modelled from the spec: the two retransmission timers. -/
inductive ZrtpTimer where
  | T1
  | T2
deriving DecidableEq, Repr

/-- Modelled from the spec: T1 has base 50 ms, T2 base 150 ms. -/
def ZrtpTimer.base : ZrtpTimer → Nat
  | .T1 => 50
  | .T2 => 150

/-- Modelled from the spec: both timers are capped at 1200 ms. -/
def ZrtpTimer.cap : ZrtpTimer → Nat
  | .T1 => 1200
  | .T2 => 1200

/-- Modelled from the spec: T1 allows 20 retries, T2 allows 10. -/
def ZrtpTimer.maxRetries : ZrtpTimer → Nat
  | .T1 => 20
  | .T2 => 10

/-- Modelled from the spec: the interval after `retries` retransmissions: the base,
doubling, capped. -/
def ZrtpTimer.interval (t : ZrtpTimer) (retries : Nat) : Nat :=
  min (t.base * 2 ^ retries) t.cap

/-- A packet handed to `sendDataZRTP`: a Hello with its content, or another message. -/
inductive ZrtpPacket where
  | hello (hp : ZrtpPacketHello)
  | message (type : MessageType)
deriving DecidableEq, Repr

/-- What a `zrtpNegotiationFailed` call reports. -/
inductive FailureCode where
  | SevereTooMuchRetries
  | zrtpError (subCode : Int)
deriving DecidableEq, Repr

/-- Modelled from the spec: the calls of the callback surface the engine makes. -/
inductive CallbackCall where
  | sendDataZRTP (packet : ZrtpPacket)
  | activateTimer (ms : Nat)
  | cancelTimer
  | zrtpNegotiationFailed (severity : MessageSeverity) (code : FailureCode)
deriving DecidableEq, Repr

/-- Modelled from the spec: the events delivered to the state machine: the host commands
to start and to stop, an inbound packet, an Error packet of the peer with its subcode, a
fatal condition found by the engine, and an elapsed timer. -/
inductive EngineEvent where
  | start
  | stop
  | packet (type : MessageType)
  | peerError (subCode : Int)
  | fatal (subCode : Int)
  | timerExpired
deriving DecidableEq, Repr

/-- Modelled from the spec: the engine `ZRtp` (code not among the source files): its
configuration, whether it is the designated Initiator, whether its hvi is the larger one
when both sides commit, its state and the retransmissions made in that state. -/
structure ZRtp where
  config : ZrtpConfigure
  initiator : Bool
  hviLarger : Bool
  state : ZrtpState
  retries : Nat
deriving DecidableEq, Repr

/-- The constructor `ZRtp(...)`: the engine is in state Initial. -/
def newZRtp (config : ZrtpConfigure) (initiator hviLarger : Bool) : ZRtp :=
  { config := config, initiator := initiator, hviLarger := hviLarger,
    state := .Initial, retries := 0 }

/-- Modelled from the spec: the timer that governs the retransmission of the message a
state waits on: T1 for Hello, Commit and DHPart2, T2 for Confirm1, Confirm2 and for the
Error that awaits its ErrorACK; no timer in the other states. -/
def timerOf : ZrtpState → Option ZrtpTimer
  | .Detect => some .T1
  | .CommitSent => some .T1
  | .WaitConfirm1 => some .T1
  | .WaitConfirm2 => some .T2
  | .WaitConf2Ack => some .T2
  | .WaitErrorAck => some .T2
  | _ => none

/-- Modelled from the spec: the states between Commit and SecureState, in which a stop
sends an Error. -/
def midNegotiation : ZrtpState → Bool
  | .CommitSent => true
  | .WaitDHPart2 => true
  | .WaitConfirm1 => true
  | .WaitConfirm2 => true
  | .WaitConf2Ack => true
  | _ => false

/-- Modelled from the spec: the packet a state retransmits when its timer elapses. -/
def resendOf (z : ZRtp) : List ZrtpPacket :=
  match z.state with
  | .Detect => [.hello (configureHello z.config)]
  | .CommitSent => [.message .Commit]
  | .WaitConfirm1 => [.message .DHPart2]
  | .WaitConfirm2 => [.message .Confirm1]
  | .WaitConf2Ack => [.message .Confirm2]
  | .WaitErrorAck => [.message .Error]
  | _ => []

/-- Modelled from the spec: the transitions of the state machine on every event but an
elapsed timer: the next state, the packets sent, and the failures reported to the host.
An event a state does not expect leaves the state as it is. -/
def transition (z : ZRtp) (ev : EngineEvent) :
    ZrtpState × List ZrtpPacket × List (MessageSeverity × FailureCode) :=
  match z.state, ev with
  -- the session has ended: nothing happens any more
  | .Terminal, _ => (.Terminal, [], [])
  -- Initial: on start() send Hello; move to Detect
  | .Initial, .start => (.Detect, [.hello (configureHello z.config)], [])
  | .Initial, .stop => (.Terminal, [], [])
  | .Initial, _ => (.Initial, [], [])
  -- stopZrtp() at any state sends Error if mid-negotiation and drops to terminal state
  | s, .stop => (.Terminal, if midNegotiation s then [.message .Error] else [], [])
  -- a peer Error is acknowledged and given to the host with a negation sign
  | _, .peerError c => (.Terminal, [.message .ErrorACK], [(.ZrtpError, .zrtpError (-c))])
  -- on any fatal condition send Error, await ErrorACK with timer, then terminate
  | .WaitErrorAck, .packet .ErrorACK => (.Terminal, [], [])
  | .WaitErrorAck, _ => (.WaitErrorAck, [], [])
  | _, .fatal c => (.WaitErrorAck, [.message .Error], [(.ZrtpError, .zrtpError c)])
  -- Detect: on peer Hello send HelloACK, move to AckDetected; on HelloACK move to AckSent
  | .Detect, .packet .Hello => (.AckDetected, [.message .HelloACK], [])
  | .Detect, .packet .HelloACK => (.AckSent, [], [])
  -- AckDetected / AckSent: when both directions are complete the Initiator emits Commit
  | .AckDetected, .packet .HelloACK =>
    if z.initiator then (.CommitSent, [.message .Commit], []) else (.WaitCommit, [], [])
  | .AckSent, .packet .Hello =>
    if z.initiator then (.CommitSent, [.message .HelloACK, .message .Commit], [])
    else (.WaitCommit, [.message .HelloACK], [])
  -- the peer commits: Responder, prepare DHPart1, send, await DHPart2
  | .AckDetected, .packet .Commit => (.WaitDHPart2, [.message .DHPart1], [])
  | .AckSent, .packet .Commit => (.WaitDHPart2, [.message .DHPart1], [])
  | .WaitCommit, .packet .Commit => (.WaitDHPart2, [.message .DHPart1], [])
  -- CommitSent: contention, the larger hvi wins the Initiator role
  | .CommitSent, .packet .Commit =>
    if z.hviLarger then (.CommitSent, [], []) else (.WaitDHPart2, [.message .DHPart1], [])
  -- Initiator: on DHPart1 send DHPart2, expect Confirm1
  | .CommitSent, .packet .DHPart1 => (.WaitConfirm1, [.message .DHPart2], [])
  -- Responder: on DHPart2 send Confirm1
  | .WaitDHPart2, .packet .DHPart2 => (.WaitConfirm2, [.message .Confirm1], [])
  -- Initiator: on Confirm1 send Confirm2, await Conf2ACK
  | .WaitConfirm1, .packet .Confirm1 => (.WaitConf2Ack, [.message .Confirm2], [])
  -- SecureState: on Conf2ACK (Initiator) or Confirm2 (Responder)
  | .WaitConfirm2, .packet .Confirm2 => (.SecureState, [.message .Conf2ACK], [])
  | .WaitConf2Ack, .packet .Conf2ACK => (.SecureState, [], [])
  | s, _ => (s, [], [])

/-- Modelled from the spec: the processing of one event.  An elapsed timer retransmits
and schedules the timer again, or ends the session with `SevereTooMuchRetries` once the
cap of retries is exceeded.  Any other event takes the transition; leaving a state whose
timer is outstanding cancels that timer, entering a state governed by a timer schedules
it. -/
def processEvent (z : ZRtp) (ev : EngineEvent) : ZRtp × List CallbackCall :=
  match ev with
  | .timerExpired =>
    match timerOf z.state with
    | none => (z, [])
    | some t =>
      if z.retries < t.maxRetries then
        ({ z with retries := z.retries + 1 },
          (resendOf z).map .sendDataZRTP ++ [.activateTimer (t.interval (z.retries + 1))])
      else
        ({ z with state := .Terminal, retries := 0 },
          [.zrtpNegotiationFailed .Severe .SevereTooMuchRetries])
  | ev =>
    let (next, packets, failures) := transition z ev
    if next = z.state then
      (z, packets.map .sendDataZRTP
        ++ failures.map (fun f => .zrtpNegotiationFailed f.1 f.2))
    else
      ({ z with state := next, retries := 0 },
        (match timerOf z.state with
          | some _ => [.cancelTimer]
          | none => [])
        ++ packets.map .sendDataZRTP
        ++ failures.map (fun f => .zrtpNegotiationFailed f.1 f.2)
        ++ (match timerOf next with
          | some t => [.activateTimer (t.interval 0)]
          | none => []))

/-- A session: the events are processed in their order of arrival; the result is the
engine afterwards and all callback calls made, in order. -/
def runSession (z : ZRtp) : List EngineEvent → ZRtp × List CallbackCall
  | [] => (z, [])
  | ev :: evs =>
    let step := processEvent z ev
    let rest := runSession step.1 evs
    (rest.1, step.2 ++ rest.2)

/-- `startZrtpEngine()`: the start command is delivered to the state machine. -/
def startZrtpEngine (z : ZRtp) : ZRtp × List CallbackCall := processEvent z .start

/-- `stopZrtp()`: the stop command is delivered to the state machine. -/
def stopZrtp (z : ZRtp) : ZRtp × List CallbackCall := processEvent z .stop

/-- The number of `activateTimer` calls among callback calls. -/
def activateTimerCalls (calls : List CallbackCall) : Nat :=
  calls.countP (fun c => match c with | .activateTimer _ => true | _ => false)

/-- The number of `cancelTimer` calls among callback calls. -/
def cancelTimerCalls (calls : List CallbackCall) : Nat :=
  calls.countP (fun c => match c with | .cancelTimer => true | _ => false)

/-- The number of `zrtpNegotiationFailed` calls among callback calls. -/
def negotiationFailedCalls (calls : List CallbackCall) : Nat :=
  calls.countP (fun c => match c with | .zrtpNegotiationFailed _ _ => true | _ => false)

/-- The first packet handed to `sendDataZRTP` among callback calls. -/
def firstSent : List CallbackCall → Option ZrtpPacket
  | [] => none
  | .sendDataZRTP p :: _ => some p
  | _ :: calls => firstSent calls

/-- 1 when a timer is outstanding in the state, else 0. -/
def outstanding (s : ZrtpState) : Nat :=
  match timerOf s with
  | some _ => 1
  | none => 0

/-! ## Sample hosts and records -/

/-- A little-endian host whose time type is 64 bits wide. -/
def hostLE64 : Host := { time32 := false, bigEndian := false }

/-- A little-endian host whose time type is 32 bits wide. -/
def hostLE32 : Host := { time32 := true, bigEndian := false }

/-- A big-endian host whose time type is 64 bits wide. -/
def hostBE64 : Host := { time32 := false, bigEndian := true }

/-- A big-endian host whose time type is 32 bits wide. -/
def hostBE32 : Host := { time32 := true, bigEndian := true }

/-- A 32-byte secret. -/
def sampleSecret : List Byte := List.replicate RS_LENGTH 0x5A

/-- A pointer to the sample secret, held outside the record. -/
def samplePointer : DataPointer := .external sampleSecret

/-- A record of a peer with both retained secrets and a MiTM key, SAS verified. -/
def sampleRecord : ZIDRecord :=
  { identifier := List.replicate IDENTIFIER_LEN 0xAB
    flags := 0x17
    rs1Interval := [0x10, 0x0E, 0, 0, 0, 0, 0, 0]
    rs1Data := List.replicate RS_LENGTH 0x11
    rs2Interval := [0xFF, 0xFF, 0xFF, 0xFF, 0xFF, 0xFF, 0xFF, 0xFF]
    rs2Data := List.replicate RS_LENGTH 0x22
    mitmKey := List.replicate RS_LENGTH 0x33 }

/-! ## The interval in the words of the spec -/

/-- Sign extension of a 32-bit pattern to a 64-bit pattern. -/
def signExtend32to64 (u : Nat) : Nat :=
  if u < 2 ^ 31 then u else u + (2 ^ 64 - 2 ^ 32)

/-- The stored interval as the spec words it for a 32-bit time type: the sign-extended
64-bit value of `validThru`, as 8 bytes least significant first. -/
def signExtendedLE64 (validThru : Int) : List Byte :=
  toBytesLE 8 (signExtend32to64 (toUnsigned 32 validThru))

/-! ## Lemmas on bytes, objects and the time type -/

theorem ofBytesLE_toBytesLE (n u : Nat) : ofBytesLE (toBytesLE n u) = u % 256 ^ n := by
  induction n generalizing u with
  | zero => simp [toBytesLE, ofBytesLE, Nat.mod_one]
  | succ n ih =>
    simp only [toBytesLE, ofBytesLE, ih]
    rw [pow_succ', Nat.mod_mul]
    simp [Fin.ofNat]

theorem length_toBytesLE (n u : Nat) : (toBytesLE n u).length = n := by
  induction n generalizing u with
  | zero => rfl
  | succ n ih => simp [toBytesLE, ih]

theorem length_objectBytes (h : Host) (n : Nat) (v : Int) : (objectBytes h n v).length = n := by
  unfold objectBytes
  split <;> simp [length_toBytesLE]

theorem toUnsigned_lt (bits : Nat) (v : Int) : toUnsigned bits v < 2 ^ bits := by
  unfold toUnsigned
  have hp : (0 : Int) < 2 ^ bits := by positivity
  have h1 := Int.emod_lt_of_pos v hp
  have h0 := Int.emod_nonneg v (ne_of_gt hp)
  zify
  rw [Int.toNat_of_nonneg h0]
  exact_mod_cast h1

theorem objectValue_objectBytes (h : Host) (n : Nat) (v : Int) :
    objectValue h n (objectBytes h n v) = toSigned (8 * n) (toUnsigned (8 * n) v) := by
  have hpow : (256 : Nat) ^ n = 2 ^ (8 * n) := by
    rw [pow_mul]; norm_num
  have hlt := toUnsigned_lt (8 * n) v
  unfold objectValue objectBytes
  cases h.bigEndian <;>
    simp [ofBytesLE_toBytesLE, hpow, Nat.mod_eq_of_lt hlt]

theorem toSigned_toUnsigned_64 (v : Int) (h1 : -(2 ^ 63) ≤ v) (h2 : v < 2 ^ 63) :
    toSigned 64 (toUnsigned 64 v) = v := by
  unfold toSigned toUnsigned
  norm_num
  split <;> omega

theorem toSigned_toUnsigned_32 (v : Int) (h1 : -(2 ^ 31) ≤ v) (h2 : v < 2 ^ 31) :
    toSigned 32 (toUnsigned 32 v) = v := by
  unfold toSigned toUnsigned
  norm_num
  split <;> omega

theorem toSigned_toUnsigned_range_64 (v : Int) :
    -(2 ^ 63) ≤ toSigned 64 (toUnsigned 64 v) ∧ toSigned 64 (toUnsigned 64 v) < 2 ^ 63 := by
  unfold toSigned toUnsigned
  norm_num
  split <;> omega

theorem toSigned_toUnsigned_range_32 (v : Int) :
    -(2 ^ 31) ≤ toSigned 32 (toUnsigned 32 v) ∧ toSigned 32 (toUnsigned 32 v) < 2 ^ 31 := by
  unfold toSigned toUnsigned
  norm_num
  split <;> omega

theorem timeCast_of_inTimeRange (h : Host) (x : Int) (hx : inTimeRange h x) :
    timeCast h x = x := by
  obtain ⟨t32, be⟩ := h
  cases t32
  · simp only [inTimeRange, sizeofTime] at hx
    norm_num at hx
    simp only [timeCast, sizeofTime]
    exact toSigned_toUnsigned_64 x (by norm_num; omega) (by norm_num; omega)
  · simp only [inTimeRange, sizeofTime] at hx
    norm_num at hx
    simp only [timeCast, sizeofTime]
    exact toSigned_toUnsigned_32 x (by norm_num; omega) (by norm_num; omega)

theorem inTimeRange_timeCast (h : Host) (x : Int) : inTimeRange h (timeCast h x) := by
  obtain ⟨t32, be⟩ := h
  cases t32
  · have := toSigned_toUnsigned_range_64 x
    simp only [inTimeRange, timeCast, sizeofTime]
    norm_num at this ⊢
    exact this
  · have := toSigned_toUnsigned_range_32 x
    simp only [inTimeRange, timeCast, sizeofTime]
    norm_num at this ⊢
    exact this

theorem inTimeRange_newValidThru (h : Host) (now expire : Int) :
    inTimeRange h (newValidThru h now expire) := by
  unfold newValidThru
  split
  · obtain ⟨t32, be⟩ := h
    cases t32 <;> simp [inTimeRange, sizeofTime]
  · split
    · obtain ⟨t32, be⟩ := h
      cases t32 <;> simp [inTimeRange, sizeofTime]
    · exact inTimeRange_timeCast h _

theorem memcpy_memcpy_read (old src tmp : List Byte) (n : Nat) (hs : src.length = n)
    (ht : tmp.length = n) : memcpy tmp (memcpy old src n) n = src := by
  subst hs
  simp [memcpy, List.drop_of_length_le (le_of_eq ht)]

theorem readValidThru_intervalBytes (h : Host) (old : List Byte) (v : Int)
    (hv : inTimeRange h v) :
    readValidThru h (memcpy old (intervalBytes h v) TIME_LENGTH) = v := by
  have hc := timeCast_of_inTimeRange h v hv
  obtain ⟨t32, be⟩ := h
  cases t32
  · have hl := length_objectBytes ⟨false, be⟩ 8 v
    simp only [timeCast, sizeofTime] at hc
    simp only [readValidThru, intervalBytes, sizeofTime, TIME_LENGTH]
    norm_num
    rw [memcpy_memcpy_read _ _ _ 8 hl (by simp), objectValue_objectBytes]
    simpa using hc
  · have hl := length_objectBytes ⟨true, be⟩ 8 v
    simp only [inTimeRange, sizeofTime] at hv
    norm_num at hv
    have h64 := toSigned_toUnsigned_64 v (by norm_num; omega) (by norm_num; omega)
    simp only [readValidThru, intervalBytes, sizeofTime, TIME_LENGTH]
    norm_num
    rw [memcpy_memcpy_read _ _ _ 8 hl (by simp), objectValue_objectBytes]
    norm_num
    rw [h64]
    exact hc

theorem rs1Interval_setNewRs1 (h : Host) (now : Int) (r : ZIDRecord) (data : DataPointer)
    (expire : Int) :
    (setNewRs1 h now r data expire).rs1Interval
      = memcpy r.rs1Interval (intervalBytes h (newValidThru h now expire)) TIME_LENGTH := rfl

theorem readValidThru_setNewRs1 (h : Host) (now : Int) (r : ZIDRecord) (data : DataPointer)
    (expire : Int) :
    readValidThru h (setNewRs1 h now r data expire).rs1Interval = newValidThru h now expire := by
  rw [rs1Interval_setNewRs1]
  exact readValidThru_intervalBytes h _ _ (inTimeRange_newValidThru h now expire)

theorem isRs1NotExpired_setNewRs1 (h : Host) (now : Int) (r : ZIDRecord) (data : DataPointer)
    (expire later : Int) :
    isRs1NotExpired h later (setNewRs1 h now r data expire)
      = notExpired later (newValidThru h now expire) := by
  simp only [isRs1NotExpired, readValidThru_setNewRs1]

theorem memcpy_full (dst src : List Byte) (n : Nat) (hs : src.length = n)
    (hd : dst.length = n) : memcpy dst src n = src := by
  subst hs
  simp [memcpy, List.drop_of_length_le (le_of_eq hd)]

/-! ## Lemmas on the flag word -/

theorem or_and_self_flag (f c : Nat) : (f ||| c) &&& c = c := by
  apply Nat.eq_of_testBit_eq
  intro i
  simp only [Nat.testBit_and, Nat.testBit_or]
  cases f.testBit i <;> cases c.testBit i <;> rfl

theorem and_not_and_flag (f c : Nat) (hc : c < 2 ^ 32) : (f &&& bitNot32 c) &&& c = 0 := by
  apply Nat.eq_of_testBit_eq
  intro i
  simp only [bitNot32, Nat.testBit_and, Nat.testBit_xor, Nat.zero_testBit]
  cases hci : c.testBit i <;> simp
  have : i < 32 := by
    by_contra hi
    have := Nat.testBit_lt_two_pow (x := c) (i := i) (lt_of_lt_of_le hc (Nat.pow_le_pow_right (by norm_num) (by omega)))
    simp [hci] at this
  have h2 : (4294967295 : Nat) = 2 ^ 32 - 1 := by norm_num
  rw [h2, Nat.testBit_two_pow_sub_one]
  simp [this]

theorem or_or_self_flag (f c : Nat) : (f ||| c) ||| c = f ||| c := by
  rw [Nat.or_assoc, Nat.or_self]

theorem and_and_self_flag (f m : Nat) : (f &&& m) &&& m = f &&& m := by
  rw [Nat.and_assoc, Nat.and_self]

theorem or_and_of_disjoint (f c d : Nat) (hcd : c &&& d = 0) : (f ||| c) &&& d = f &&& d := by
  apply Nat.eq_of_testBit_eq
  intro i
  have hbit : (c &&& d).testBit i = false := by rw [hcd]; exact Nat.zero_testBit i
  rw [Nat.testBit_and] at hbit
  simp only [Nat.testBit_and, Nat.testBit_or]
  cases hci : c.testBit i
  · simp
  · have hdi : d.testBit i = false := by simpa [hci] using hbit
    simp [hdi]

theorem and_not_and_of_disjoint (f c d : Nat) (hcd : c &&& d = 0) (hd : d < 2 ^ 32) :
    (f &&& bitNot32 c) &&& d = f &&& d := by
  apply Nat.eq_of_testBit_eq
  intro i
  have hbit : (c &&& d).testBit i = false := by rw [hcd]; exact Nat.zero_testBit i
  rw [Nat.testBit_and] at hbit
  simp only [bitNot32, Nat.testBit_and, Nat.testBit_xor]
  cases hdi : d.testBit i
  · simp
  · have hi : i < 32 := by
      by_contra hi
      have := Nat.testBit_lt_two_pow (x := d) (i := i)
        (lt_of_lt_of_le hd (Nat.pow_le_pow_right (by norm_num) (by omega)))
      simp [hdi] at this
    have hci : c.testBit i = false := by simpa [hdi] using hbit
    have h2 : (4294967295 : Nat) = 2 ^ 32 - 1 := by norm_num
    rw [h2, Nat.testBit_two_pow_sub_one]
    simp [hi, hci]

theorem testBit_or_flag (f i n : Nat) (hi : i ≠ n) : (f ||| 2 ^ n).testBit i = f.testBit i := by
  rw [Nat.testBit_or, Nat.testBit_two_pow]
  have : decide (n = i) = false := by simp; omega
  simp [this]

theorem testBit_and_not_flag (f i n : Nat) (hf : f < 2 ^ 32) (hi : i ≠ n) :
    (f &&& bitNot32 (2 ^ n)).testBit i = f.testBit i := by
  simp only [bitNot32, Nat.testBit_and, Nat.testBit_xor, Nat.testBit_two_pow]
  have hn : decide (n = i) = false := by simp; omega
  cases hfi : f.testBit i
  · simp
  · have hi32 : i < 32 := by
      by_contra h32
      have := Nat.testBit_lt_two_pow (x := f) (i := i)
        (lt_of_lt_of_le hf (Nat.pow_le_pow_right (by norm_num) (by omega)))
      simp [hfi] at this
    have h2 : (4294967295 : Nat) = 2 ^ 32 - 1 := by norm_num
    rw [h2, Nat.testBit_two_pow_sub_one]
    simp [hi32, hn]

theorem toUnsigned_64_eq_signExtend (v : Int) (h1 : -(2 ^ 31) ≤ v) (h2 : v < 2 ^ 31) :
    toUnsigned 64 v = signExtend32to64 (toUnsigned 32 v) := by
  unfold signExtend32to64 toUnsigned
  norm_num
  split <;> omega

theorem negateInt32_neg (c : Int) (hpos : 0 < c) (hmax : c < 2 ^ 31) :
    negateInt32 (-c) = c := by
  have h : -c * -1 = c := by ring
  unfold negateInt32
  rw [h]
  exact toSigned_toUnsigned_32 c (by omega) hmax

/-! ## Lemmas on the callback calls of the engine -/

theorem activateTimerCalls_append (a b : List CallbackCall) :
    activateTimerCalls (a ++ b) = activateTimerCalls a + activateTimerCalls b := by
  simp [activateTimerCalls, List.countP_append]

theorem cancelTimerCalls_append (a b : List CallbackCall) :
    cancelTimerCalls (a ++ b) = cancelTimerCalls a + cancelTimerCalls b := by
  simp [cancelTimerCalls, List.countP_append]

theorem activateTimerCalls_sends (packets : List ZrtpPacket) :
    activateTimerCalls (packets.map .sendDataZRTP) = 0 := by
  induction packets with
  | nil => rfl
  | cons p ps _ => simp [activateTimerCalls, List.countP_cons]

theorem cancelTimerCalls_sends (packets : List ZrtpPacket) :
    cancelTimerCalls (packets.map .sendDataZRTP) = 0 := by
  induction packets with
  | nil => rfl
  | cons p ps _ => simp [cancelTimerCalls, List.countP_cons]

theorem activateTimerCalls_failures (failures : List (MessageSeverity × FailureCode)) :
    activateTimerCalls (failures.map (fun f => .zrtpNegotiationFailed f.1 f.2)) = 0 := by
  induction failures with
  | nil => rfl
  | cons p ps _ => simp [activateTimerCalls, List.countP_cons]

theorem cancelTimerCalls_failures (failures : List (MessageSeverity × FailureCode)) :
    cancelTimerCalls (failures.map (fun f => .zrtpNegotiationFailed f.1 f.2)) = 0 := by
  induction failures with
  | nil => rfl
  | cons p ps _ => simp [cancelTimerCalls, List.countP_cons]

theorem processEvent_of_ne_timerExpired (z : ZRtp) (ev : EngineEvent)
    (hev : ev ≠ .timerExpired) :
    processEvent z ev =
      if (transition z ev).1 = z.state then
        (z, (transition z ev).2.1.map .sendDataZRTP
          ++ (transition z ev).2.2.map (fun f => .zrtpNegotiationFailed f.1 f.2))
      else
        ({ z with state := (transition z ev).1, retries := 0 },
          (match timerOf z.state with
            | some _ => [.cancelTimer]
            | none => [])
          ++ (transition z ev).2.1.map .sendDataZRTP
          ++ (transition z ev).2.2.map (fun f => .zrtpNegotiationFailed f.1 f.2)
          ++ (match timerOf (transition z ev).1 with
            | some t => [.activateTimer (t.interval 0)]
            | none => [])) := by
  cases ev <;> first | exact absurd rfl hev | rfl

theorem processEvent_balance (z : ZRtp) (ev : EngineEvent) (hev : ev ≠ .timerExpired) :
    activateTimerCalls (processEvent z ev).2 + outstanding z.state
      = cancelTimerCalls (processEvent z ev).2 + outstanding (processEvent z ev).1.state := by
  rw [processEvent_of_ne_timerExpired z ev hev]
  by_cases hs : (transition z ev).1 = z.state
  · simp only [hs, if_true, activateTimerCalls_append, cancelTimerCalls_append,
      activateTimerCalls_sends, cancelTimerCalls_sends, activateTimerCalls_failures,
      cancelTimerCalls_failures]
  · simp only [hs, if_false, activateTimerCalls_append, cancelTimerCalls_append,
      activateTimerCalls_sends, cancelTimerCalls_sends, activateTimerCalls_failures,
      cancelTimerCalls_failures, outstanding]
    cases timerOf z.state <;> cases timerOf (transition z ev).1 <;>
      simp [activateTimerCalls, cancelTimerCalls]

theorem runSession_balance (events : List EngineEvent) :
    ∀ z : ZRtp, EngineEvent.timerExpired ∉ events →
      activateTimerCalls (runSession z events).2 + outstanding z.state
        = cancelTimerCalls (runSession z events).2
          + outstanding (runSession z events).1.state := by
  induction events with
  | nil => intro z _; simp [runSession, activateTimerCalls, cancelTimerCalls]
  | cons ev evs ih =>
    intro z hmem
    have hev : ev ≠ .timerExpired := by
      intro h
      exact hmem (by simp [h])
    have hrest : EngineEvent.timerExpired ∉ evs := by
      intro h
      exact hmem (by simp [h])
    have h1 := processEvent_balance z ev hev
    have h2 := ih (processEvent z ev).1 hrest
    simp only [runSession, activateTimerCalls_append, cancelTimerCalls_append]
    omega

/-! ## Expiry of a freshly installed rs1 -/

/-- C1: after `setNewRs1(x, -1)`, on every host, from every prior record state, for
every secret `x` and every clock value `now` at the call, `isRs1NotExpired()` returns
true at every clock value `later`, be it after or before `now`. -/
theorem C1_never_expires (h : Host) (now later : Int) (r : ZIDRecord) (x : DataPointer) :
    isRs1NotExpired h later (setNewRs1 h now r x (-1)) = true := by
  rw [isRs1NotExpired_setNewRs1]
  simp [newValidThru, notExpired]

/-- C2: after `setNewRs1(x, 0)`, on every host, from every prior record state, for every
secret `x` and every clock value `now` at the call, `isRs1NotExpired()` returns false
at every clock value `later`. -/
theorem C2_already_expired (h : Host) (now later : Int) (r : ZIDRecord) (x : DataPointer) :
    isRs1NotExpired h later (setNewRs1 h now r x 0) = false := by
  rw [isRs1NotExpired_setNewRs1]
  simp [newValidThru, notExpired]

/-- C3, as stated, fails: when `setNewRs1(x, 3600)` is called with the clock at
`t = -3601`, the deadline `t + 3600` is `-1`, the value that means "never expires", and
`isRs1NotExpired()` with the clock at `t + 3601 = 0` returns true.  Both clock values
are values of the time type. -/
theorem C3_counterexample :
    inTimeRange hostLE64 (-3601) ∧ inTimeRange hostLE64 (-3601 + 3601) ∧
    sampleSecret.length = 32 ∧
    isRs1NotExpired hostLE64 (-3601 + 3601)
      (setNewRs1 hostLE64 (-3601) zeroRecord samplePointer 3600) = true := by
  decide

/-- C3, amended: for every host, every prior record state, every secret `x` and every
clock value `t` other than `-3601` for which `t + 3601` is again a value of the time
type, `isRs1NotExpired()` evaluated with the clock at `t + 3601` after
`setNewRs1(x, 3600)` at clock `t` returns false. -/
theorem C3_expired_after_3601 (h : Host) (t : Int) (r : ZIDRecord) (x : DataPointer)
    (ht : inTimeRange h t) (ht1 : inTimeRange h (t + 3601)) (hne : t ≠ -3601) :
    isRs1NotExpired h (t + 3601) (setNewRs1 h t r x 3600) = false := by
  have hr : inTimeRange h (t + 3600) := by
    unfold inTimeRange at *
    constructor <;> omega
  rw [isRs1NotExpired_setNewRs1]
  have hv : newValidThru h t 3600 = t + 3600 := by
    simp [newValidThru, timeCast_of_inTimeRange h _ hr]
  rw [hv]
  unfold notExpired
  have h1 : t + 3600 ≠ -1 := by omega
  simp [h1]

/-- Witness of C3 amended: the clock at 1 700 000 000 on a host with a 32-bit time type. -/
theorem C3_expired_after_3601_witness :
    inTimeRange hostLE32 1700000000 ∧ inTimeRange hostLE32 (1700000000 + 3601) ∧
    isRs1NotExpired hostLE32 (1700000000 + 3601)
      (setNewRs1 hostLE32 1700000000 sampleRecord samplePointer 3600) = false :=
  ⟨by decide, by decide,
    C3_expired_after_3601 hostLE32 1700000000 sampleRecord samplePointer
      (by decide) (by decide) (by decide)⟩

/-! ## The shift of rs1 into rs2 -/

/-- C4, as stated, fails when `data` is the pointer `getRs2()` returns: the shift
overwrites `rs2Data` with the old rs1 before the bytes of `data` are read, so
`getRs1()` keeps the bytes it had and does not return the 32 bytes `data` pointed to
when the call was made. -/
theorem C4_counterexample :
    sampleRecord.WellFormed ∧
    (dataAt sampleRecord .rs2Data).length = RS_LENGTH ∧
    dataAt sampleRecord .rs2Data = List.replicate 32 0x22 ∧
    getRs1 (setNewRs1 hostLE64 1700000000 sampleRecord .rs2Data 2592000)
      = List.replicate 32 0x11 ∧
    getRs1 (setNewRs1 hostLE64 1700000000 sampleRecord .rs2Data 2592000)
      ≠ dataAt sampleRecord .rs2Data := by
  decide

/-- C4, amended: for every host, clock value, well-formed record state, `expire` and
pointer `data` to 32 bytes, after `setNewRs1(data, expire)` the bytes `getRs2()` returns
are those `getRs1()` returned before the call and the rs2 interval is the rs1 interval
held before the call; `getRs1()` returns the 32 bytes `data` pointed to before the call
unless `data` is the record's own rs2 array, and when `data` is that array (`getRs2()`)
`getRs1()` returns what it returned before the call. -/
theorem C4_shift_rs1_into_rs2 (h : Host) (now : Int) (r : ZIDRecord) (data : DataPointer)
    (expire : Int) (hr : r.WellFormed) (hd : (dataAt r data).length = RS_LENGTH) :
    getRs2 (setNewRs1 h now r data expire) = getRs1 r ∧
    (setNewRs1 h now r data expire).rs2Interval = r.rs1Interval ∧
    (data ≠ .rs2Data → getRs1 (setNewRs1 h now r data expire) = dataAt r data) ∧
    (data = .rs2Data → getRs1 (setNewRs1 h now r data expire) = getRs1 r) := by
  obtain ⟨_, _, hi1, hd1, hi2, hd2, _⟩ := hr
  have hshift : memcpy r.rs2Data r.rs1Data RS_LENGTH = r.rs1Data :=
    memcpy_full r.rs2Data r.rs1Data RS_LENGTH hd1 hd2
  refine ⟨hshift, ?_, ?_, ?_⟩
  · exact memcpy_full r.rs2Interval r.rs1Interval TIME_LENGTH hi1 hi2
  · intro hne
    cases data with
    | external bytes => exact memcpy_full r.rs1Data bytes RS_LENGTH hd hd1
    | rs2Data => exact absurd rfl hne
    | mitmKey => exact memcpy_full r.rs1Data r.mitmKey RS_LENGTH hd hd1
  · intro he
    subst he
    show memcpy r.rs1Data (memcpy r.rs2Data r.rs1Data RS_LENGTH) RS_LENGTH = r.rs1Data
    rw [hshift]
    exact memcpy_full r.rs1Data r.rs1Data RS_LENGTH hd1 hd1

/-- Witness of C4 amended: the sample record, a new secret held outside the record, 30
days of validity. -/
theorem C4_shift_rs1_into_rs2_witness :
    sampleRecord.WellFormed ∧ (dataAt sampleRecord samplePointer).length = RS_LENGTH ∧
    getRs2 (setNewRs1 hostLE64 1700000000 sampleRecord samplePointer 2592000)
      = getRs1 sampleRecord ∧
    (setNewRs1 hostLE64 1700000000 sampleRecord samplePointer 2592000).rs2Interval
      = sampleRecord.rs1Interval ∧
    getRs1 (setNewRs1 hostLE64 1700000000 sampleRecord samplePointer 2592000)
      = sampleSecret :=
  ⟨by decide, by decide,
    (C4_shift_rs1_into_rs2 hostLE64 1700000000 sampleRecord samplePointer 2592000
      (by decide) (by decide)).1,
    (C4_shift_rs1_into_rs2 hostLE64 1700000000 sampleRecord samplePointer 2592000
      (by decide) (by decide)).2.1,
    (C4_shift_rs1_into_rs2 hostLE64 1700000000 sampleRecord samplePointer 2592000
      (by decide) (by decide)).2.2.1 (by decide)⟩

/-! ## The deadline of a new rs1 -/

/-- C5, as stated, fails: `setNewRs1(data, 1)` called with the clock at `-1` (the value
`time` returns on failure) computes the deadline `-1 + 1 = 0`, the value that means
"already expired"; at clock `0` the query returns false although `0 <= -1 + 1`. -/
theorem C5_counterexample :
    ¬ (isRs1NotExpired hostLE64 0 (setNewRs1 hostLE64 (-1) zeroRecord samplePointer 1) = true
        ↔ (0 : Int) ≤ -1 + 1) := by
  decide

/-- C5, amended: for every host, record state, `data`, every `expire > 0` and every
clock value `t` such that `t + expire` is a value of the time type (no overflow) other
than `-1` and `0`, the deadline read back from the record after `setNewRs1(data,
expire)` at clock `t` is `t + expire`, and `isRs1NotExpired()` at clock `later` returns
true exactly when `later <= t + expire`. -/
theorem C5_deadline (h : Host) (t later : Int) (r : ZIDRecord) (data : DataPointer)
    (expire : Int) (hpos : 0 < expire) (hr : inTimeRange h (t + expire))
    (hm1 : t + expire ≠ -1) (h0 : t + expire ≠ 0) :
    readValidThru h (setNewRs1 h t r data expire).rs1Interval = t + expire ∧
    (isRs1NotExpired h later (setNewRs1 h t r data expire) = true ↔ later ≤ t + expire) := by
  have hv : newValidThru h t expire = t + expire := by
    have h1 : expire ≠ -1 := by omega
    have h2 : ¬ expire ≤ 0 := by omega
    simp [newValidThru, h1, h2, timeCast_of_inTimeRange h _ hr]
  refine ⟨?_, ?_⟩
  · rw [readValidThru_setNewRs1, hv]
  · rw [isRs1NotExpired_setNewRs1, hv]
    simp [notExpired, hm1, h0]

/-- Witness of C5 amended: one hour of validity from clock 1 700 000 000, queried one
hour later to the second, on a big-endian host with a 32-bit time type. -/
theorem C5_deadline_witness :
    (0 : Int) < 3600 ∧ inTimeRange hostBE32 (1700000000 + 3600) ∧
    readValidThru hostBE32
      (setNewRs1 hostBE32 1700000000 sampleRecord samplePointer 3600).rs1Interval
      = 1700000000 + 3600 ∧
    (isRs1NotExpired hostBE32 1700003600
        (setNewRs1 hostBE32 1700000000 sampleRecord samplePointer 3600) = true
      ↔ (1700003600 : Int) ≤ 1700000000 + 3600) :=
  ⟨by decide, by decide,
    C5_deadline hostBE32 1700000000 1700003600 sampleRecord samplePointer 3600
      (by decide) (by decide) (by decide) (by decide)⟩

/-! ## The expiry queries -/

/-- C6, as stated, fails: on a freshly zeroed record the stored `validThru` is 0, so with
the clock at 0 the condition `now <= validThru` holds, yet both queries return false:
the value 0 means "already expired" whatever the clock says. -/
theorem C6_counterexample :
    ¬ ((readValidThru hostLE64 zeroRecord.rs1Interval = -1 ∨
          (0 : Int) ≤ readValidThru hostLE64 zeroRecord.rs1Interval) →
        isRs1NotExpired hostLE64 0 zeroRecord = true) ∧
    ¬ ((readValidThru hostLE64 zeroRecord.rs2Interval = -1 ∨
          (0 : Int) ≤ readValidThru hostLE64 zeroRecord.rs2Interval) →
        isRs2NotExpired hostLE64 0 zeroRecord = true) := by
  decide

/-- C6, amended: for every host, record state and clock value `now`, with `validThru`
the value read from the rs1 (respectively rs2) interval, `isRs1NotExpired()`
(respectively `isRs2NotExpired()`) returns true when `validThru == -1`, or when
`validThru != 0` and `now <= validThru`. -/
theorem C6_not_expired (h : Host) (now : Int) (r : ZIDRecord) :
    ((readValidThru h r.rs1Interval = -1 ∨
        (readValidThru h r.rs1Interval ≠ 0 ∧ now ≤ readValidThru h r.rs1Interval)) →
      isRs1NotExpired h now r = true) ∧
    ((readValidThru h r.rs2Interval = -1 ∨
        (readValidThru h r.rs2Interval ≠ 0 ∧ now ≤ readValidThru h r.rs2Interval)) →
      isRs2NotExpired h now r = true) := by
  constructor
  · intro hv
    simp only [isRs1NotExpired, notExpired]
    rcases hv with hv | ⟨hv0, hle⟩
    · simp [hv]
    · simp [hv0, hle]
  · intro hv
    simp only [isRs2NotExpired, notExpired]
    rcases hv with hv | ⟨hv0, hle⟩
    · simp [hv]
    · simp [hv0, hle]

/-- Witness of C6 amended: in the sample record rs1 is valid through second 3600 and
rs2 never expires; the clock is at 3600. -/
theorem C6_not_expired_witness :
    (readValidThru hostLE64 sampleRecord.rs1Interval ≠ 0 ∧
      (3600 : Int) ≤ readValidThru hostLE64 sampleRecord.rs1Interval) ∧
    readValidThru hostLE64 sampleRecord.rs2Interval = -1 ∧
    isRs1NotExpired hostLE64 3600 sampleRecord = true ∧
    isRs2NotExpired hostLE64 3600 sampleRecord = true :=
  ⟨by decide, by decide,
    (C6_not_expired hostLE64 3600 sampleRecord).1 (Or.inr (by decide)),
    (C6_not_expired hostLE64 3600 sampleRecord).2 (Or.inl (by decide))⟩

/-- C7: for every host, record state and clock value `now`, `isRs1NotExpired()`
(respectively `isRs2NotExpired()`) returns false when the `validThru` read from the rs1
(respectively rs2) interval is 0; on a freshly zeroed record both intervals read as 0
and both queries return false. -/
theorem C7_zero_is_expired (h : Host) (now : Int) (r : ZIDRecord) :
    (readValidThru h r.rs1Interval = 0 → isRs1NotExpired h now r = false) ∧
    (readValidThru h r.rs2Interval = 0 → isRs2NotExpired h now r = false) ∧
    readValidThru h zeroRecord.rs1Interval = 0 ∧
    readValidThru h zeroRecord.rs2Interval = 0 ∧
    isRs1NotExpired h now zeroRecord = false ∧
    isRs2NotExpired h now zeroRecord = false := by
  have hz : readValidThru h (List.replicate TIME_LENGTH 0) = 0 := by
    obtain ⟨t32, be⟩ := h
    cases t32 <;> cases be <;> decide
  refine ⟨?_, ?_, hz, hz, ?_, ?_⟩
  · intro hv
    simp [isRs1NotExpired, notExpired, hv]
  · intro hv
    simp [isRs2NotExpired, notExpired, hv]
  · have : readValidThru h zeroRecord.rs1Interval = 0 := hz
    simp [isRs1NotExpired, notExpired, this]
  · have : readValidThru h zeroRecord.rs2Interval = 0 := hz
    simp [isRs2NotExpired, notExpired, this]

/-- Witness of C7: a record whose rs1 was installed with `expire = 0` and whose rs2
interval is all zero, on a host with a 32-bit time type. -/
theorem C7_zero_is_expired_witness :
    readValidThru hostLE32 (setNewRs1 hostLE32 1700000000 zeroRecord samplePointer 0).rs1Interval
      = 0 ∧
    readValidThru hostLE32 (setNewRs1 hostLE32 1700000000 zeroRecord samplePointer 0).rs2Interval
      = 0 ∧
    isRs1NotExpired hostLE32 5 (setNewRs1 hostLE32 1700000000 zeroRecord samplePointer 0)
      = false ∧
    isRs2NotExpired hostLE32 5 (setNewRs1 hostLE32 1700000000 zeroRecord samplePointer 0)
      = false :=
  ⟨by decide, by decide,
    (C7_zero_is_expired hostLE32 5
      (setNewRs1 hostLE32 1700000000 zeroRecord samplePointer 0)).1 (by decide),
    (C7_zero_is_expired hostLE32 5
      (setNewRs1 hostLE32 1700000000 zeroRecord samplePointer 0)).2.1 (by decide)⟩

/-! ## The flag word -/

/-- C8: for every record state, after `setOwnZIDRecord()` the flags word equals
`OwnZIDRecord`, `isOwnZIDRecord()` is true and `isRs1Valid()`, `isRs2Valid()`,
`isMITMKeyAvailable()` and `isSasVerified()` are false; and for every flags word
`isOwnZIDRecord()` is true exactly when the word equals `OwnZIDRecord`, in which case no
other flag is reported set. -/
theorem C8_own_record_exclusive (r : ZIDRecord) :
    (setOwnZIDRecord r).flags = OwnZIDRecord ∧
    isOwnZIDRecord (setOwnZIDRecord r) = true ∧
    isRs1Valid (setOwnZIDRecord r) = false ∧
    isRs2Valid (setOwnZIDRecord r) = false ∧
    isMITMKeyAvailable (setOwnZIDRecord r) = false ∧
    isSasVerified (setOwnZIDRecord r) = false ∧
    (isOwnZIDRecord r = true ↔ r.flags = OwnZIDRecord) ∧
    (isOwnZIDRecord r = true →
      isRs1Valid r = false ∧ isRs2Valid r = false ∧
      isMITMKeyAvailable r = false ∧ isSasVerified r = false) := by
  refine ⟨rfl, ?_, ?_, ?_, ?_, ?_, ?_, ?_⟩
  · simp [isOwnZIDRecord, setOwnZIDRecord]
  · simp [isRs1Valid, setOwnZIDRecord, OwnZIDRecord, RS1Valid]
  · simp [isRs2Valid, setOwnZIDRecord, OwnZIDRecord, RS2Valid]
  · simp [isMITMKeyAvailable, setOwnZIDRecord, OwnZIDRecord, MITMKeyAvailable]
  · simp [isSasVerified, setOwnZIDRecord, OwnZIDRecord, SASVerified]
  · simp [isOwnZIDRecord]
  · intro ho
    have hf : r.flags = OwnZIDRecord := by simpa [isOwnZIDRecord] using ho
    simp [isRs1Valid, isRs2Valid, isMITMKeyAvailable, isSasVerified, hf, OwnZIDRecord,
      RS1Valid, RS2Valid, MITMKeyAvailable, SASVerified]

/-- Witness of C8: the sample record turned into an own-ZID record. -/
theorem C8_own_record_exclusive_witness :
    isOwnZIDRecord (setOwnZIDRecord sampleRecord) = true ∧
    isRs1Valid (setOwnZIDRecord sampleRecord) = false ∧
    isRs2Valid (setOwnZIDRecord sampleRecord) = false ∧
    isMITMKeyAvailable (setOwnZIDRecord sampleRecord) = false ∧
    isSasVerified (setOwnZIDRecord sampleRecord) = false :=
  ⟨by decide,
    (C8_own_record_exclusive (setOwnZIDRecord sampleRecord)).2.2.2.2.2.2.2 (by decide)⟩

/-- C9: for each flag X among Rs1Valid, Rs2Valid, MITMKeyAvailable and SasVerified and
every record state: `isX()` is true after `setX()` and false after `resetX()`, and
applying `setX` twice, or `resetX` twice, gives the same record as applying it once. -/
theorem C9_set_reset_flags (r : ZIDRecord) :
    (isRs1Valid (setRs1Valid r) = true ∧ isRs1Valid (resetRs1Valid r) = false ∧
      setRs1Valid (setRs1Valid r) = setRs1Valid r ∧
      resetRs1Valid (resetRs1Valid r) = resetRs1Valid r) ∧
    (isRs2Valid (setRs2Valid r) = true ∧ isRs2Valid (resetRs2Valid r) = false ∧
      setRs2Valid (setRs2Valid r) = setRs2Valid r ∧
      resetRs2Valid (resetRs2Valid r) = resetRs2Valid r) ∧
    (isMITMKeyAvailable (setMITMKeyAvailable r) = true ∧
      isMITMKeyAvailable (resetMITMKeyAvailable r) = false ∧
      setMITMKeyAvailable (setMITMKeyAvailable r) = setMITMKeyAvailable r ∧
      resetMITMKeyAvailable (resetMITMKeyAvailable r) = resetMITMKeyAvailable r) ∧
    (isSasVerified (setSasVerified r) = true ∧ isSasVerified (resetSasVerified r) = false ∧
      setSasVerified (setSasVerified r) = setSasVerified r ∧
      resetSasVerified (resetSasVerified r) = resetSasVerified r) := by
  refine ⟨⟨?_, ?_, ?_, ?_⟩, ⟨?_, ?_, ?_, ?_⟩, ⟨?_, ?_, ?_, ?_⟩, ⟨?_, ?_, ?_, ?_⟩⟩
  · simp [isRs1Valid, setRs1Valid, or_and_self_flag]
  · simp [isRs1Valid, resetRs1Valid, and_not_and_flag _ RS1Valid (by decide)]
    decide
  · simp [setRs1Valid, or_or_self_flag]
  · simp [resetRs1Valid, and_and_self_flag]
  · simp [isRs2Valid, setRs2Valid, or_and_self_flag]
  · simp [isRs2Valid, resetRs2Valid, and_not_and_flag _ RS2Valid (by decide)]
    decide
  · simp [setRs2Valid, or_or_self_flag]
  · simp [resetRs2Valid, and_and_self_flag]
  · simp [isMITMKeyAvailable, setMITMKeyAvailable, or_and_self_flag]
  · simp [isMITMKeyAvailable, resetMITMKeyAvailable,
      and_not_and_flag _ MITMKeyAvailable (by decide)]
    decide
  · simp [setMITMKeyAvailable, or_or_self_flag]
  · simp [resetMITMKeyAvailable, and_and_self_flag]
  · simp [isSasVerified, setSasVerified, or_and_self_flag]
  · simp [isSasVerified, resetSasVerified, and_not_and_flag _ SASVerified (by decide)]
    decide
  · simp [setSasVerified, or_or_self_flag]
  · simp [resetSasVerified, and_and_self_flag]

/-! ## The stored interval on a host with a 32-bit time type -/

/-- C10, as stated, fails on a big-endian host with a 32-bit time type: `setNewRs1`
called at clock 1000 with `expire = 1` stores `validThru = 1001` most significant byte
first, which is not the little-endian byte sequence. -/
theorem C10_counterexample :
    zeroRecord.WellFormed ∧ newValidThru hostBE32 1000 1 = 1001 ∧
    (setNewRs1 hostBE32 1000 zeroRecord samplePointer 1).rs1Interval
      = [0, 0, 0, 0, 0, 0, 3, 233] ∧
    signExtendedLE64 1001 = [233, 3, 0, 0, 0, 0, 0, 0] ∧
    (setNewRs1 hostBE32 1000 zeroRecord samplePointer 1).rs1Interval
      ≠ signExtendedLE64 (newValidThru hostBE32 1000 1) := by
  decide

/-- C10, amended: on every host whose time type is 32 bits wide, for every well-formed
record state, `setNewRs1` stores in the rs1 interval the sign-extended 64-bit value of
`validThru` in the byte order of the host: least significant byte first on a
little-endian host, most significant byte first on a big-endian one, and eight `0xFF`
bytes for `expire == -1` on both.  These are the 8 bytes a host of the same byte order
with a 64-bit time type stores whenever it computes the same `validThru`, and the
`validThru` that `isRs1NotExpired()` reads back is the one stored. -/
theorem C10_interval_on_32_bit_time (h : Host) (now : Int) (r : ZIDRecord)
    (data : DataPointer) (expire : Int) (h32 : h.time32 = true) (hr : r.WellFormed) :
    (h.bigEndian = false →
      (setNewRs1 h now r data expire).rs1Interval
        = signExtendedLE64 (newValidThru h now expire)) ∧
    (h.bigEndian = true →
      (setNewRs1 h now r data expire).rs1Interval
        = (signExtendedLE64 (newValidThru h now expire)).reverse) ∧
    (expire = -1 →
      (setNewRs1 h now r data expire).rs1Interval = List.replicate 8 0xFF) ∧
    (∀ (now64 expire64 : Int),
      newValidThru { h with time32 := false } now64 expire64 = newValidThru h now expire →
      (setNewRs1 { h with time32 := false } now64 r data expire64).rs1Interval
        = (setNewRs1 h now r data expire).rs1Interval) ∧
    readValidThru h (setNewRs1 h now r data expire).rs1Interval
      = newValidThru h now expire := by
  obtain ⟨t32, be⟩ := h
  simp only at h32
  subst h32
  obtain ⟨_, _, hi1, _⟩ := hr
  have hrange := inTimeRange_newValidThru ⟨true, be⟩ now expire
  simp only [inTimeRange, sizeofTime] at hrange
  norm_num at hrange
  have hu := toUnsigned_64_eq_signExtend (newValidThru ⟨true, be⟩ now expire)
    (by norm_num; omega) (by norm_num; omega)
  have hlen : ∀ (hh : Host) (v : Int), (intervalBytes hh v).length = TIME_LENGTH := by
    intro hh v
    obtain ⟨t, b⟩ := hh
    cases t <;> simp [intervalBytes, sizeofTime, length_objectBytes, TIME_LENGTH]
  have hst : ∀ (hh : Host) (n e : Int),
      (setNewRs1 hh n r data e).rs1Interval = intervalBytes hh (newValidThru hh n e) := by
    intro hh n e
    rw [rs1Interval_setNewRs1]
    exact memcpy_full _ _ _ (hlen _ _) hi1
  refine ⟨?_, ?_, ?_, ?_, readValidThru_setNewRs1 _ _ _ _ _⟩
  · intro hbe
    simp only at hbe
    subst hbe
    rw [hst]
    simp [intervalBytes, sizeofTime, objectBytes, signExtendedLE64, hu]
  · intro hbe
    simp only at hbe
    subst hbe
    rw [hst]
    simp [intervalBytes, sizeofTime, objectBytes, signExtendedLE64, hu]
  · intro he
    subst he
    rw [hst]
    have hv : newValidThru ⟨true, be⟩ now (-1) = -1 := by simp [newValidThru]
    rw [hv]
    cases be <;> decide
  · intro now64 expire64 hv
    rw [hst, hst, hv]
    simp [intervalBytes, sizeofTime, objectBytes]

/-- Witness of C10 amended: the sample record on the little-endian host with a 32-bit
time type. -/
theorem C10_interval_on_32_bit_time_witness :
    hostLE32.time32 = true ∧ sampleRecord.WellFormed ∧
    (setNewRs1 hostLE32 1700000000 sampleRecord samplePointer (-1)).rs1Interval
      = List.replicate 8 0xFF ∧
    readValidThru hostLE32
      (setNewRs1 hostLE32 1700000000 sampleRecord samplePointer (-1)).rs1Interval
      = newValidThru hostLE32 1700000000 (-1) :=
  ⟨by decide, by decide,
    (C10_interval_on_32_bit_time hostLE32 1700000000 sampleRecord samplePointer (-1)
      (by decide) (by decide)).2.2.1 (by decide),
    (C10_interval_on_32_bit_time hostLE32 1700000000 sampleRecord samplePointer (-1)
      (by decide) (by decide)).2.2.2.2⟩

/-! ## Frame of `setMiTMData`, of the flag setters and of `setNewRs1` -/

/-- C15: for every well-formed record state and every 32-byte key `k`, after
`setMiTMData(k)` the record reports `isMITMKeyAvailable()` true and `getMiTMData()`
returns `k`, while the rs1 and rs2 data, both intervals, the identifier and every bit
of the flags word other than `MITMKeyAvailable` (bit 2) are unchanged; so are the
answers of `isRs1Valid()`, `isRs2Valid()` and `isSasVerified()`. -/
theorem C15_setMiTMData_frame (r : ZIDRecord) (k : List Byte) (hr : r.WellFormed)
    (hk : k.length = RS_LENGTH) :
    isMITMKeyAvailable (setMiTMData r k) = true ∧
    getMiTMData (setMiTMData r k) = k ∧
    getRs1 (setMiTMData r k) = getRs1 r ∧
    getRs2 (setMiTMData r k) = getRs2 r ∧
    (setMiTMData r k).rs1Interval = r.rs1Interval ∧
    (setMiTMData r k).rs2Interval = r.rs2Interval ∧
    getIdentifier (setMiTMData r k) = getIdentifier r ∧
    isRs1Valid (setMiTMData r k) = isRs1Valid r ∧
    isRs2Valid (setMiTMData r k) = isRs2Valid r ∧
    isSasVerified (setMiTMData r k) = isSasVerified r ∧
    (setMiTMData r k).flags &&& OwnZIDRecord = r.flags &&& OwnZIDRecord ∧
    (∀ i : Nat, i ≠ 2 → (setMiTMData r k).flags.testBit i = r.flags.testBit i) := by
  obtain ⟨_, _, _, _, _, _, hm⟩ := hr
  refine ⟨?_, ?_, rfl, rfl, rfl, rfl, rfl, ?_, ?_, ?_, ?_, ?_⟩
  · simp [isMITMKeyAvailable, setMiTMData, setMITMKeyAvailable, or_and_self_flag]
  · exact memcpy_full r.mitmKey k RS_LENGTH hk hm
  · simp [isRs1Valid, setMiTMData, setMITMKeyAvailable,
      or_and_of_disjoint _ MITMKeyAvailable RS1Valid (by decide)]
  · simp [isRs2Valid, setMiTMData, setMITMKeyAvailable,
      or_and_of_disjoint _ MITMKeyAvailable RS2Valid (by decide)]
  · simp [isSasVerified, setMiTMData, setMITMKeyAvailable,
      or_and_of_disjoint _ MITMKeyAvailable SASVerified (by decide)]
  · exact or_and_of_disjoint _ MITMKeyAvailable OwnZIDRecord (by decide)
  · intro i hi
    exact testBit_or_flag r.flags i 2 hi

/-- Witness of C15: the MiTM key of the sample record is replaced by the sample secret. -/
theorem C15_setMiTMData_frame_witness :
    sampleRecord.WellFormed ∧ sampleSecret.length = RS_LENGTH ∧
    isMITMKeyAvailable (setMiTMData sampleRecord sampleSecret) = true ∧
    getMiTMData (setMiTMData sampleRecord sampleSecret) = sampleSecret :=
  ⟨by decide, by decide,
    (C15_setMiTMData_frame sampleRecord sampleSecret (by decide) (by decide)).1,
    (C15_setMiTMData_frame sampleRecord sampleSecret (by decide) (by decide)).2.1⟩

/-- C16: the flags RS1Valid, RS2Valid, MITMKeyAvailable and SASVerified are the distinct
bits 1, 2, 4 and 0x10, and for every record state and every two different flags X and Y
among them neither `setX()` nor `resetX()` changes the result of `isY()`. -/
theorem C16_flags_independent (r : ZIDRecord) :
    (RS1Valid = 1 ∧ RS2Valid = 2 ∧ MITMKeyAvailable = 4 ∧ SASVerified = 0x10) ∧
    (isRs2Valid (setRs1Valid r) = isRs2Valid r ∧
      isMITMKeyAvailable (setRs1Valid r) = isMITMKeyAvailable r ∧
      isSasVerified (setRs1Valid r) = isSasVerified r ∧
      isRs2Valid (resetRs1Valid r) = isRs2Valid r ∧
      isMITMKeyAvailable (resetRs1Valid r) = isMITMKeyAvailable r ∧
      isSasVerified (resetRs1Valid r) = isSasVerified r) ∧
    (isRs1Valid (setRs2Valid r) = isRs1Valid r ∧
      isMITMKeyAvailable (setRs2Valid r) = isMITMKeyAvailable r ∧
      isSasVerified (setRs2Valid r) = isSasVerified r ∧
      isRs1Valid (resetRs2Valid r) = isRs1Valid r ∧
      isMITMKeyAvailable (resetRs2Valid r) = isMITMKeyAvailable r ∧
      isSasVerified (resetRs2Valid r) = isSasVerified r) ∧
    (isRs1Valid (setMITMKeyAvailable r) = isRs1Valid r ∧
      isRs2Valid (setMITMKeyAvailable r) = isRs2Valid r ∧
      isSasVerified (setMITMKeyAvailable r) = isSasVerified r ∧
      isRs1Valid (resetMITMKeyAvailable r) = isRs1Valid r ∧
      isRs2Valid (resetMITMKeyAvailable r) = isRs2Valid r ∧
      isSasVerified (resetMITMKeyAvailable r) = isSasVerified r) ∧
    (isRs1Valid (setSasVerified r) = isRs1Valid r ∧
      isRs2Valid (setSasVerified r) = isRs2Valid r ∧
      isMITMKeyAvailable (setSasVerified r) = isMITMKeyAvailable r ∧
      isRs1Valid (resetSasVerified r) = isRs1Valid r ∧
      isRs2Valid (resetSasVerified r) = isRs2Valid r ∧
      isMITMKeyAvailable (resetSasVerified r) = isMITMKeyAvailable r) := by
  have hs : ∀ (f c d : Nat), c &&& d = 0 → ((f ||| c) &&& d == d) = (f &&& d == d) := by
    intro f c d hcd
    rw [or_and_of_disjoint f c d hcd]
  have hc : ∀ (f c d : Nat), c &&& d = 0 → d < 2 ^ 32 →
      ((f &&& bitNot32 c) &&& d == d) = (f &&& d == d) := by
    intro f c d hcd hd
    rw [and_not_and_of_disjoint f c d hcd hd]
  refine ⟨⟨rfl, rfl, rfl, rfl⟩, ⟨?_, ?_, ?_, ?_, ?_, ?_⟩, ⟨?_, ?_, ?_, ?_, ?_, ?_⟩,
    ⟨?_, ?_, ?_, ?_, ?_, ?_⟩, ⟨?_, ?_, ?_, ?_, ?_, ?_⟩⟩
  · exact hs r.flags RS1Valid RS2Valid (by decide)
  · exact hs r.flags RS1Valid MITMKeyAvailable (by decide)
  · exact hs r.flags RS1Valid SASVerified (by decide)
  · exact hc r.flags RS1Valid RS2Valid (by decide) (by decide)
  · exact hc r.flags RS1Valid MITMKeyAvailable (by decide) (by decide)
  · exact hc r.flags RS1Valid SASVerified (by decide) (by decide)
  · exact hs r.flags RS2Valid RS1Valid (by decide)
  · exact hs r.flags RS2Valid MITMKeyAvailable (by decide)
  · exact hs r.flags RS2Valid SASVerified (by decide)
  · exact hc r.flags RS2Valid RS1Valid (by decide) (by decide)
  · exact hc r.flags RS2Valid MITMKeyAvailable (by decide) (by decide)
  · exact hc r.flags RS2Valid SASVerified (by decide) (by decide)
  · exact hs r.flags MITMKeyAvailable RS1Valid (by decide)
  · exact hs r.flags MITMKeyAvailable RS2Valid (by decide)
  · exact hs r.flags MITMKeyAvailable SASVerified (by decide)
  · exact hc r.flags MITMKeyAvailable RS1Valid (by decide) (by decide)
  · exact hc r.flags MITMKeyAvailable RS2Valid (by decide) (by decide)
  · exact hc r.flags MITMKeyAvailable SASVerified (by decide) (by decide)
  · exact hs r.flags SASVerified RS1Valid (by decide)
  · exact hs r.flags SASVerified RS2Valid (by decide)
  · exact hs r.flags SASVerified MITMKeyAvailable (by decide)
  · exact hc r.flags SASVerified RS1Valid (by decide) (by decide)
  · exact hc r.flags SASVerified RS2Valid (by decide) (by decide)
  · exact hc r.flags SASVerified MITMKeyAvailable (by decide) (by decide)

/-- C19: for every host, clock value, record state, `data` and `expire`, `setNewRs1`
ends with `isRs1Valid()` true and `isRs2Valid()` false, whatever the flags word was
before; so the secret shifted from rs1 into rs2 is marked not valid even when rs1 was
valid before the call. -/
theorem C19_setNewRs1_valid_flags (h : Host) (now : Int) (r : ZIDRecord) (data : DataPointer)
    (expire : Int) :
    isRs1Valid (setNewRs1 h now r data expire) = true ∧
    isRs2Valid (setNewRs1 h now r data expire) = false ∧
    (isRs1Valid r = true →
      getRs2 (setNewRs1 h now r data expire) = memcpy r.rs2Data r.rs1Data RS_LENGTH ∧
      isRs2Valid (setNewRs1 h now r data expire) = false) := by
  have h1 : isRs1Valid (setNewRs1 h now r data expire) = true := by
    simp [isRs1Valid, setNewRs1, setRs1Valid, or_and_self_flag]
  have h2 : isRs2Valid (setNewRs1 h now r data expire) = false := by
    have hz : ((r.flags &&& bitNot32 RS2Valid) ||| RS1Valid) &&& RS2Valid = 0 := by
      rw [or_and_of_disjoint _ RS1Valid RS2Valid (by decide),
        and_not_and_flag _ RS2Valid (by decide)]
    simp only [isRs2Valid, setNewRs1, setRs1Valid, resetRs2Valid, hz]
    decide
  exact ⟨h1, h2, fun _ => ⟨rfl, h2⟩⟩

/-- Witness of C19: in the sample record rs1 and rs2 are both valid before the call. -/
theorem C19_setNewRs1_valid_flags_witness :
    isRs1Valid sampleRecord = true ∧ isRs2Valid sampleRecord = true ∧
    getRs2 (setNewRs1 hostLE64 1700000000 sampleRecord samplePointer 3600)
      = memcpy sampleRecord.rs2Data sampleRecord.rs1Data RS_LENGTH ∧
    isRs2Valid (setNewRs1 hostLE64 1700000000 sampleRecord samplePointer 3600) = false :=
  ⟨by decide, by decide,
    (C19_setNewRs1_valid_flags hostLE64 1700000000 sampleRecord samplePointer 3600).2.2
      (by decide)⟩

/-- C20: for every host, clock value, well-formed record state, `data` and `expire`,
`setNewRs1` leaves the identifier, the MiTM key and the flag bits `MITMKeyAvailable`,
`SASVerified` and `OwnZIDRecord` unchanged; of the flags word only the bits `RS1Valid`
(bit 0) and `RS2Valid` (bit 1) can change, every other bit keeps its value. -/
theorem C20_setNewRs1_frame (h : Host) (now : Int) (r : ZIDRecord) (data : DataPointer)
    (expire : Int) (hr : r.WellFormed) :
    getIdentifier (setNewRs1 h now r data expire) = getIdentifier r ∧
    getMiTMData (setNewRs1 h now r data expire) = getMiTMData r ∧
    (setNewRs1 h now r data expire).flags &&& MITMKeyAvailable
      = r.flags &&& MITMKeyAvailable ∧
    (setNewRs1 h now r data expire).flags &&& SASVerified = r.flags &&& SASVerified ∧
    (setNewRs1 h now r data expire).flags &&& OwnZIDRecord = r.flags &&& OwnZIDRecord ∧
    isMITMKeyAvailable (setNewRs1 h now r data expire) = isMITMKeyAvailable r ∧
    isSasVerified (setNewRs1 h now r data expire) = isSasVerified r ∧
    (∀ i : Nat, i ≠ 0 → i ≠ 1 →
      (setNewRs1 h now r data expire).flags.testBit i = r.flags.testBit i) := by
  have hflags : (setNewRs1 h now r data expire).flags
      = (r.flags &&& bitNot32 RS2Valid) ||| RS1Valid := rfl
  have hbit : ∀ d : Nat, RS1Valid &&& d = 0 → RS2Valid &&& d = 0 → d < 2 ^ 32 →
      (setNewRs1 h now r data expire).flags &&& d = r.flags &&& d := by
    intro d h1 h2 hd
    rw [hflags, or_and_of_disjoint _ RS1Valid d h1, and_not_and_of_disjoint _ RS2Valid d h2 hd]
  have hm := hbit MITMKeyAvailable (by decide) (by decide) (by decide)
  have hs := hbit SASVerified (by decide) (by decide) (by decide)
  have ho := hbit OwnZIDRecord (by decide) (by decide) (by decide)
  refine ⟨rfl, rfl, hm, hs, ho, ?_, ?_, ?_⟩
  · simp only [isMITMKeyAvailable, hm]
  · simp only [isSasVerified, hs]
  · intro i h0 h1
    obtain ⟨_, hf, _⟩ := hr
    rw [hflags]
    have e1 : RS1Valid = 2 ^ 0 := rfl
    have e2 : RS2Valid = 2 ^ 1 := rfl
    rw [e1, e2, testBit_or_flag _ i 0 h0, testBit_and_not_flag _ i 1 hf h1]

/-- Witness of C20: the sample record, whose flags word has MITMKeyAvailable and
SASVerified set. -/
theorem C20_setNewRs1_frame_witness :
    sampleRecord.WellFormed ∧
    getIdentifier (setNewRs1 hostLE64 1700000000 sampleRecord samplePointer 3600)
      = getIdentifier sampleRecord ∧
    getMiTMData (setNewRs1 hostLE64 1700000000 sampleRecord samplePointer 3600)
      = getMiTMData sampleRecord :=
  ⟨by decide,
    (C20_setNewRs1_frame hostLE64 1700000000 sampleRecord samplePointer 3600 (by decide)).1,
    (C20_setNewRs1_frame hostLE64 1700000000 sampleRecord samplePointer 3600 (by decide)).2.1⟩

/-! ## The ErrorACK packet -/

/-- C11: whatever the 16 bytes of the member `data` held before, the packet built by the
default `ZrtpPacketErrorAck` constructor has message type `"ErrorACK"` and a length field
equal to `sizeof(ErrorAckPacket_t) / ZRTP_WORD_SIZE - 1`, that is 3 words for the 12-byte
header; its size, 16 bytes, is a multiple of 4 and equals the length field times 4
plus 4. -/
theorem C11_error_ack_packet (data : List Byte) (hd : data.length = sizeofErrorAckPacket) :
    getMessageType (ZrtpPacketErrorAck data) = asciiBytes "ErrorACK" ∧
    getLength (ZrtpPacketErrorAck data) = sizeofErrorAckPacket / ZRTP_WORD_SIZE - 1 ∧
    getLength (ZrtpPacketErrorAck data) = 3 ∧
    sizeofZrtpPacketHeader = 12 ∧
    (ZrtpPacketErrorAck data).length = 16 ∧
    (ZrtpPacketErrorAck data).length % 4 = 0 ∧
    (ZrtpPacketErrorAck data).length = getLength (ZrtpPacketErrorAck data) * 4 + 4 := by
  rcases data with _ | ⟨d0, _ | ⟨d1, _ | ⟨d2, _ | ⟨d3, _ | ⟨d4, _ | ⟨d5, _ | ⟨d6, _ | ⟨d7,
    _ | ⟨d8, _ | ⟨d9, _ | ⟨d10, _ | ⟨d11, _ | ⟨d12, _ | ⟨d13, _ | ⟨d14, _ | ⟨d15,
    _ | ⟨d16, rest⟩⟩⟩⟩⟩⟩⟩⟩⟩⟩⟩⟩⟩⟩⟩⟩⟩ <;>
    simp [sizeofErrorAckPacket, sizeofZrtpPacketHeader, TYPE_SIZE, ZRTP_WORD_SIZE] at hd
  have hl : (ZrtpPacketErrorAck
      [d0, d1, d2, d3, d4, d5, d6, d7, d8, d9, d10, d11, d12, d13, d14, d15]).length = 16 := rfl
  have hg : getLength (ZrtpPacketErrorAck
      [d0, d1, d2, d3, d4, d5, d6, d7, d8, d9, d10, d11, d12, d13, d14, d15]) = 3 := rfl
  refine ⟨rfl, rfl, hg, rfl, hl, ?_, ?_⟩
  · rw [hl]
  · rw [hl, hg]

/-- Witness of C11: the member `data` holds 16 bytes `0xAA` before the constructor runs. -/
theorem C11_error_ack_packet_witness :
    (List.replicate 16 (0xAA : Byte)).length = sizeofErrorAckPacket ∧
    getMessageType (ZrtpPacketErrorAck (List.replicate 16 0xAA)) = asciiBytes "ErrorACK" ∧
    getLength (ZrtpPacketErrorAck (List.replicate 16 0xAA)) = 3 ∧
    (ZrtpPacketErrorAck (List.replicate 16 0xAA)).length = 16 :=
  ⟨by decide,
    (C11_error_ack_packet (List.replicate 16 0xAA) (by decide)).1,
    (C11_error_ack_packet (List.replicate 16 0xAA) (by decide)).2.2.1,
    (C11_error_ack_packet (List.replicate 16 0xAA) (by decide)).2.2.2.2.1⟩

/-! ## The demo host: origin of an error subcode, opening of the cache -/

/-- C17: in `MyUserCallback::showMessage`, `MyUserCallbackMulti::showMessage` and
`zrtpNegotiationFailed`, for severity `ZrtpError` and every subcode `c` with
`0 < c < 2^31`: the subcode `-c` is reported as a received error packet and looked up in
`zrtpMap` under `c`, the subcode `c` is reported as a sent error packet and looked up
under `c` as well, so both select the same message text and only the origin label
differs. -/
theorem C17_error_origin (cb : MyUserCallback) (secureOn : Int → List String) (c : Int)
    (hpos : 0 < c) (hmax : c < 2 ^ 31) :
    showMessage cb secureOn .ZrtpError (-c)
      = [cb.pfx, "Received error packet: "] ++ printMessage cb.pfx (mapAt cb.zrtpMap c) ∧
    showMessage cb secureOn .ZrtpError c
      = [cb.pfx, "Sent error packet: "] ++ printMessage cb.pfx (mapAt cb.zrtpMap c) ∧
    showMessageMulti cb .ZrtpError (-c)
      = [cb.pfx, "Received error packet: "] ++ printMessage cb.pfx (mapAt cb.zrtpMap c) ∧
    showMessageMulti cb .ZrtpError c
      = [cb.pfx, "Sent error packet: "] ++ printMessage cb.pfx (mapAt cb.zrtpMap c) ∧
    zrtpNegotiationFailed cb .ZrtpError (-c)
      = some ([cb.pfx, "Received error packet: "]
          ++ printMessage cb.pfx (mapAt cb.zrtpMap c)) ∧
    zrtpNegotiationFailed cb .ZrtpError c
      = some ([cb.pfx, "Sent error packet: "] ++ printMessage cb.pfx (mapAt cb.zrtpMap c)) ∧
    (showMessage cb secureOn .ZrtpError (-c)).drop 2
      = (showMessage cb secureOn .ZrtpError c).drop 2 := by
  have hneg : -c < 0 := by omega
  have hnn : ¬ c < 0 := by omega
  have hr : showZrtpError cb (-c)
      = [cb.pfx, "Received error packet: "] ++ printMessage cb.pfx (mapAt cb.zrtpMap c) := by
    simp only [showZrtpError, hneg, if_true, negateInt32_neg c hpos hmax]
  have hs : showZrtpError cb c
      = [cb.pfx, "Sent error packet: "] ++ printMessage cb.pfx (mapAt cb.zrtpMap c) := by
    simp only [showZrtpError, hnn, if_false]
  refine ⟨hr, hs, hr, hs, ?_, ?_, ?_⟩
  · simp only [zrtpNegotiationFailed, if_true, hr]
  · simp only [zrtpNegotiationFailed, if_true, hs]
  · show (showZrtpError cb (-c)).drop 2 = (showZrtpError cb c).drop 2
    rw [hr, hs]
    rfl

/-- Witness of C17: the subcode `ConfirmHMACWrong` (0x70) with the texts of the demo. -/
theorem C17_error_origin_witness :
    showMessage sampleCallback (fun _ => []) .ZrtpError (-0x70)
      = ["TX: ", "Received error packet: ", "TX: ", "Auth. Error: Bad Confirm pkt HMAC", "\n"] ∧
    showMessage sampleCallback (fun _ => []) .ZrtpError 0x70
      = ["TX: ", "Sent error packet: ", "TX: ", "Auth. Error: Bad Confirm pkt HMAC", "\n"] :=
  ⟨(C17_error_origin sampleCallback (fun _ => []) 0x70 (by decide) (by decide)).1,
    (C17_error_origin sampleCallback (fun _ => []) 0x70 (by decide) (by decide)).2.1⟩

/-- C18: for every value of `HOME`, every behaviour of `open` and every requested file
name: when a cache is passed whose `getFileName()` equals the requested name,
`initCache` returns that cache and calls neither `close()` nor `open()`; when the names
differ it calls `close()` and then `open()` with the new name on the cache passed; and
in every case, with or without a cache passed, the pointer returned is empty exactly
when `open()` was called and returned a negative value. -/
theorem C18_initCache (home : Option String) (openResult : String → Int)
    (zidFilename : Option String) :
    (∀ fileName : String, fileName = cacheFileName home zidFilename →
      initCache home openResult zidFilename (some fileName) = (.passed, [.getFileName])) ∧
    (∀ fileName : String, fileName ≠ cacheFileName home zidFilename →
      (initCache home openResult zidFilename (some fileName)).2
        = [.getFileName, .close, .openOn (cacheFileName home zidFilename)] ∧
      ((initCache home openResult zidFilename (some fileName)).1 = .passed ∨
        (initCache home openResult zidFilename (some fileName)).1 = .empty)) ∧
    (∀ cache : Option String,
      ((initCache home openResult zidFilename cache).1 = .empty ↔
        (CacheCall.openOn (cacheFileName home zidFilename)
            ∈ (initCache home openResult zidFilename cache).2 ∧
          openResult (cacheFileName home zidFilename) < 0))) := by
  refine ⟨?_, ?_, ?_⟩
  · intro fileName hf
    simp [initCache, hf]
  · intro fileName hf
    by_cases ho : openResult (cacheFileName home zidFilename) < 0 <;>
      simp [initCache, hf, ho]
  · intro cache
    cases cache with
    | none =>
      by_cases ho : openResult (cacheFileName home zidFilename) < 0 <;>
        simp [initCache, ho]
    | some fileName =>
      by_cases hf : fileName = cacheFileName home zidFilename
      · simp [initCache, hf]
      · by_cases ho : openResult (cacheFileName home zidFilename) < 0 <;>
          simp [initCache, hf, ho]

/-- Witness of C18: the cache `test_t.zid` asked for again, then asked to move to
`other.zid` when `open` fails. -/
theorem C18_initCache_witness :
    initCache none (fun _ => -1) (some "test_t.zid") (some "test_t.zid")
      = (.passed, [.getFileName]) ∧
    (initCache none (fun _ => -1) (some "other.zid") (some "test_t.zid")).2
      = [.getFileName, .close, .openOn "other.zid"] ∧
    (initCache none (fun _ => -1) (some "other.zid") (some "test_t.zid")).1 = .empty :=
  ⟨(C18_initCache none (fun _ => -1) (some "test_t.zid")).1 "test_t.zid" (by decide),
    ((C18_initCache none (fun _ => -1) (some "other.zid")).2.1 "test_t.zid" (by decide)).1,
    ((C18_initCache none (fun _ => -1) (some "other.zid")).2.2 (some "test_t.zid")).2
      ⟨by decide, by decide⟩⟩

/-! ## The Hello of a configuration, the timers and the first packet of a session -/

/-- C12: for a default-constructed `ZrtpConfigure`, `configureHello` produces a Hello that
advertises exactly 1 hash (`S256`), 1 cipher (`AES1`), 2 key-exchange types in the order
`DH3k` then `Mult`, 1 SAS type (`B32 `) and 2 auth-tag types in the order `HS32` then
`HS80`. -/
theorem C12_hello_of_default_configuration :
    getNumHashes (configureHello defaultZrtpConfigure) = 1 ∧
    getNumCiphers (configureHello defaultZrtpConfigure) = 1 ∧
    getNumPubKeys (configureHello defaultZrtpConfigure) = 2 ∧
    getNumSas (configureHello defaultZrtpConfigure) = 1 ∧
    getNumAuth (configureHello defaultZrtpConfigure) = 2 ∧
    getHashType (configureHello defaultZrtpConfigure) 0 = some "S256" ∧
    getCipherType (configureHello defaultZrtpConfigure) 0 = some "AES1" ∧
    getPubKeyType (configureHello defaultZrtpConfigure) 0 = some "DH3k" ∧
    getPubKeyType (configureHello defaultZrtpConfigure) 1 = some "Mult" ∧
    getSasType (configureHello defaultZrtpConfigure) 0 = some "B32 " ∧
    getAuthLen (configureHello defaultZrtpConfigure) 0 = some "HS32" ∧
    getAuthLen (configureHello defaultZrtpConfigure) 1 = some "HS80" := by
  refine ⟨?_, ?_, ?_, ?_, ?_, ?_, ?_, ?_, ?_, ?_, ?_, ?_⟩ <;> rfl

/-- C13: for every configuration and role, and every session (sequence of events
delivered to a new engine) in which no timer expires and after which the engine is in
its terminal state, the number of `activateTimer` calls equals the number of
`cancelTimer` calls; `startZrtpEngine()` immediately followed by `stopZrtp()` is such a
session, with one call of each. -/
theorem C13_timer_balance (config : ZrtpConfigure) (initiator hviLarger : Bool)
    (events : List EngineEvent) (hexp : EngineEvent.timerExpired ∉ events)
    (hend : (runSession (newZRtp config initiator hviLarger) events).1.state = .Terminal) :
    activateTimerCalls (runSession (newZRtp config initiator hviLarger) events).2
      = cancelTimerCalls (runSession (newZRtp config initiator hviLarger) events).2 ∧
    (stopZrtp (startZrtpEngine (newZRtp config initiator hviLarger)).1).1.state
      = .Terminal ∧
    activateTimerCalls ((startZrtpEngine (newZRtp config initiator hviLarger)).2
        ++ (stopZrtp (startZrtpEngine (newZRtp config initiator hviLarger)).1).2) = 1 ∧
    cancelTimerCalls ((startZrtpEngine (newZRtp config initiator hviLarger)).2
        ++ (stopZrtp (startZrtpEngine (newZRtp config initiator hviLarger)).1).2) = 1 := by
  refine ⟨?_, rfl, rfl, rfl⟩
  have hb := runSession_balance events (newZRtp config initiator hviLarger) hexp
  rw [hend] at hb
  simpa [outstanding, timerOf, newZRtp] using hb

/-- Witness of C13: an Initiator session that reaches the secure state and is stopped. -/
theorem C13_timer_balance_witness :
    EngineEvent.timerExpired ∉
      [EngineEvent.start, .packet .Hello, .packet .HelloACK, .packet .DHPart1,
        .packet .Confirm1, .packet .Conf2ACK, .stop] ∧
    activateTimerCalls (runSession (newZRtp defaultZrtpConfigure true false)
      [.start, .packet .Hello, .packet .HelloACK, .packet .DHPart1, .packet .Confirm1,
        .packet .Conf2ACK, .stop]).2 = 4 ∧
    activateTimerCalls (runSession (newZRtp defaultZrtpConfigure true false)
      [.start, .packet .Hello, .packet .HelloACK, .packet .DHPart1, .packet .Confirm1,
        .packet .Conf2ACK, .stop]).2
      = cancelTimerCalls (runSession (newZRtp defaultZrtpConfigure true false)
      [.start, .packet .Hello, .packet .HelloACK, .packet .DHPart1, .packet .Confirm1,
        .packet .Conf2ACK, .stop]).2 :=
  ⟨by decide, by decide,
    (C13_timer_balance defaultZrtpConfigure true false
      [.start, .packet .Hello, .packet .HelloACK, .packet .DHPart1, .packet .Confirm1,
        .packet .Conf2ACK, .stop] (by decide) (by decide)).1⟩

/-- C14: for every configuration and role, the first packet a new engine hands to
`sendDataZRTP` after `startZrtpEngine()` is the Hello of `configureHello` on that
configuration: its message type is `"Hello   "`, it passes `isLengthOk()`, and it carries
the same algorithm counts and the same tags in the same order; and starting then
stopping the engine makes no `zrtpNegotiationFailed` call. -/
theorem C14_first_packet_is_hello (config : ZrtpConfigure) (initiator hviLarger : Bool) :
    firstSent (startZrtpEngine (newZRtp config initiator hviLarger)).2
      = some (.hello (configureHello config)) ∧
    (∀ hp : ZrtpPacketHello,
      firstSent (startZrtpEngine (newZRtp config initiator hviLarger)).2 = some (.hello hp) →
      hp.messageType = "Hello   " ∧ isLengthOk hp = true ∧
      getNumHashes hp = getNumHashes (configureHello config) ∧
      getNumCiphers hp = getNumCiphers (configureHello config) ∧
      getNumPubKeys hp = getNumPubKeys (configureHello config) ∧
      getNumSas hp = getNumSas (configureHello config) ∧
      getNumAuth hp = getNumAuth (configureHello config) ∧
      (∀ n : Nat, getHashType hp n = getHashType (configureHello config) n) ∧
      (∀ n : Nat, getCipherType hp n = getCipherType (configureHello config) n) ∧
      (∀ n : Nat, getPubKeyType hp n = getPubKeyType (configureHello config) n) ∧
      (∀ n : Nat, getSasType hp n = getSasType (configureHello config) n) ∧
      (∀ n : Nat, getAuthLen hp n = getAuthLen (configureHello config) n)) ∧
    negotiationFailedCalls ((startZrtpEngine (newZRtp config initiator hviLarger)).2
      ++ (stopZrtp (startZrtpEngine (newZRtp config initiator hviLarger)).1).2) = 0 := by
  have hfirst : firstSent (startZrtpEngine (newZRtp config initiator hviLarger)).2
      = some (.hello (configureHello config)) := rfl
  refine ⟨hfirst, ?_, rfl⟩
  intro hp hhp
  rw [hfirst] at hhp
  have he : configureHello config = hp := by
    injection hhp with h1
    injection h1
  subst he
  refine ⟨rfl, ?_, rfl, rfl, rfl, rfl, rfl, fun _ => rfl, fun _ => rfl, fun _ => rfl,
    fun _ => rfl, fun _ => rfl⟩
  simp [isLengthOk, configureHello]

/-- Witness of C14: the engine of the unit test, with the default configuration. -/
theorem C14_first_packet_is_hello_witness :
    firstSent (startZrtpEngine (newZRtp defaultZrtpConfigure false false)).2
      = some (.hello (configureHello defaultZrtpConfigure)) ∧
    (configureHello defaultZrtpConfigure).messageType = "Hello   " ∧
    isLengthOk (configureHello defaultZrtpConfigure) = true :=
  ⟨(C14_first_packet_is_hello defaultZrtpConfigure false false).1,
    ((C14_first_packet_is_hello defaultZrtpConfigure false false).2.1
      (configureHello defaultZrtpConfigure) (by decide)).1,
    ((C14_first_packet_is_hello defaultZrtpConfigure false false).2.1
      (configureHello defaultZrtpConfigure) (by decide)).2.1⟩

/-! ## Expiry over time, the own-ZID record, and non-positive `expire` -/

/-- C21: for every host, record state and clock values `t <= later`: if
`isRs1NotExpired()` returns false at clock `t` it returns false at clock `later`, and
likewise for `isRs2NotExpired()`. -/
theorem C21_expiry_is_permanent (h : Host) (t later : Int) (r : ZIDRecord)
    (hle : t ≤ later) :
    (isRs1NotExpired h t r = false → isRs1NotExpired h later r = false) ∧
    (isRs2NotExpired h t r = false → isRs2NotExpired h later r = false) := by
  have key : ∀ v : Int, notExpired t v = false → notExpired later v = false := by
    intro v hv
    unfold notExpired at *
    by_cases h1 : v = -1
    · simp [h1] at hv
    · by_cases h0 : v = 0
      · simp [h0]
      · simp only [h1, h0, if_false, decide_eq_false_iff_not, not_le] at hv ⊢
        omega
  exact ⟨key _, key _⟩

/-- Witness of C21: rs1 of the sample record is valid through second 3600; expired at
second 3601, it is expired at second 5000. -/
theorem C21_expiry_is_permanent_witness :
    (3601 : Int) ≤ 5000 ∧ isRs1NotExpired hostLE64 3601 sampleRecord = false ∧
    isRs1NotExpired hostLE64 5000 sampleRecord = false :=
  ⟨by decide, by decide,
    (C21_expiry_is_permanent hostLE64 3601 5000 sampleRecord (by decide)).1 (by decide)⟩

/-- C22: for every record state, after `resetOwnZIDRecord()` the flags word is 0 and
`isOwnZIDRecord()`, `isRs1Valid()`, `isRs2Valid()`, `isMITMKeyAvailable()` and
`isSasVerified()` are all false; and applying any of `setRs1Valid`, `setRs2Valid`,
`setMITMKeyAvailable`, `setSasVerified` or `setNewRs1` to a record for which
`isOwnZIDRecord()` is true makes `isOwnZIDRecord()` false. -/
theorem C22_own_flag_is_the_whole_word (r : ZIDRecord) :
    ((resetOwnZIDRecord r).flags = 0 ∧
      isOwnZIDRecord (resetOwnZIDRecord r) = false ∧
      isRs1Valid (resetOwnZIDRecord r) = false ∧
      isRs2Valid (resetOwnZIDRecord r) = false ∧
      isMITMKeyAvailable (resetOwnZIDRecord r) = false ∧
      isSasVerified (resetOwnZIDRecord r) = false) ∧
    (isOwnZIDRecord r = true →
      isOwnZIDRecord (setRs1Valid r) = false ∧
      isOwnZIDRecord (setRs2Valid r) = false ∧
      isOwnZIDRecord (setMITMKeyAvailable r) = false ∧
      isOwnZIDRecord (setSasVerified r) = false ∧
      (∀ (h : Host) (now : Int) (data : DataPointer) (expire : Int),
        isOwnZIDRecord (setNewRs1 h now r data expire) = false)) := by
  refine ⟨⟨rfl, ?_, ?_, ?_, ?_, ?_⟩, ?_⟩
  · simp [isOwnZIDRecord, resetOwnZIDRecord, OwnZIDRecord]
  · simp [isRs1Valid, resetOwnZIDRecord, RS1Valid]
  · simp [isRs2Valid, resetOwnZIDRecord, RS2Valid]
  · simp [isMITMKeyAvailable, resetOwnZIDRecord, MITMKeyAvailable]
  · simp [isSasVerified, resetOwnZIDRecord, SASVerified]
  · intro ho
    have hf : r.flags = OwnZIDRecord := by simpa [isOwnZIDRecord] using ho
    refine ⟨?_, ?_, ?_, ?_, ?_⟩
    · simp only [isOwnZIDRecord, setRs1Valid, hf]
      decide
    · simp only [isOwnZIDRecord, setRs2Valid, hf]
      decide
    · simp only [isOwnZIDRecord, setMITMKeyAvailable, hf]
      decide
    · simp only [isOwnZIDRecord, setSasVerified, hf]
      decide
    · intro h now data expire
      have hflags : (setNewRs1 h now r data expire).flags
          = (r.flags &&& bitNot32 RS2Valid) ||| RS1Valid := rfl
      simp only [isOwnZIDRecord, hflags, hf]
      decide

/-- Witness of C22: the sample record turned into an own-ZID record, then given a new
rs1. -/
theorem C22_own_flag_is_the_whole_word_witness :
    isOwnZIDRecord (setOwnZIDRecord sampleRecord) = true ∧
    isOwnZIDRecord (setRs1Valid (setOwnZIDRecord sampleRecord)) = false ∧
    isOwnZIDRecord
      (setNewRs1 hostLE64 1700000000 (setOwnZIDRecord sampleRecord) samplePointer 3600)
      = false :=
  ⟨by decide,
    ((C22_own_flag_is_the_whole_word (setOwnZIDRecord sampleRecord)).2 (by decide)).1,
    ((C22_own_flag_is_the_whole_word (setOwnZIDRecord sampleRecord)).2 (by decide)).2.2.2.2
      hostLE64 1700000000 samplePointer 3600⟩

/-- C23: on every host, for every clock value, record state and `data`, `setNewRs1`
treats every `expire <= 0` other than `-1` like 0: it leaves the same record as
`setNewRs1(data, 0)`, the stored rs1 interval reads as 0 (eight zero bytes in a
well-formed record) and `isRs1NotExpired()` returns false at every clock value `later`.
Among the values `expire <= 0` only `expire == -1` stores the never-expires value `-1`;
a positive `expire` stores the clock value plus `expire`, which reads as `-1` only when
that sum is `-1`. -/
theorem C23_non_positive_expire (h : Host) (now later : Int) (r : ZIDRecord)
    (data : DataPointer) (expire : Int) :
    (expire ≤ 0 → expire ≠ -1 →
      setNewRs1 h now r data expire = setNewRs1 h now r data 0 ∧
      readValidThru h (setNewRs1 h now r data expire).rs1Interval = 0 ∧
      (r.WellFormed →
        (setNewRs1 h now r data expire).rs1Interval = List.replicate TIME_LENGTH 0) ∧
      isRs1NotExpired h later (setNewRs1 h now r data expire) = false) ∧
    (expire ≤ 0 →
      (readValidThru h (setNewRs1 h now r data expire).rs1Interval = -1 ↔ expire = -1)) ∧
    (readValidThru h (setNewRs1 h now r data expire).rs1Interval = -1 ↔
      (expire = -1 ∨ (0 < expire ∧ timeCast h (now + expire) = -1))) := by
  refine ⟨?_, ?_, ?_⟩
  · intro hle hne
    have hv : newValidThru h now expire = 0 := by simp [newValidThru, hne, hle]
    have hv0 : newValidThru h now 0 = 0 := by simp [newValidThru]
    refine ⟨?_, ?_, ?_, ?_⟩
    · simp only [setNewRs1, hv, hv0]
    · rw [readValidThru_setNewRs1, hv]
    · intro hr
      obtain ⟨_, _, hi1, _⟩ := hr
      rw [rs1Interval_setNewRs1, hv]
      have hz : intervalBytes h 0 = List.replicate TIME_LENGTH 0 := by
        obtain ⟨t32, be⟩ := h
        cases t32 <;> cases be <;> decide
      rw [hz]
      exact memcpy_full _ _ _ (by simp) hi1
    · rw [isRs1NotExpired_setNewRs1, hv]
      simp [notExpired]
  · intro hle
    rw [readValidThru_setNewRs1]
    by_cases hne : expire = -1
    · simp [newValidThru, hne]
    · simp [newValidThru, hne, hle]
  · rw [readValidThru_setNewRs1]
    by_cases hne : expire = -1
    · simp [newValidThru, hne]
    · by_cases hle : expire ≤ 0
      · have hnp : ¬ 0 < expire := by omega
        simp [newValidThru, hne, hle, hnp]
      · have hp : 0 < expire := by omega
        simp [newValidThru, hne, hle, hp]

/-- Witness of C23: `expire = -5` on a big-endian host with a 32-bit time type. -/
theorem C23_non_positive_expire_witness :
    (-5 : Int) ≤ 0 ∧ (-5 : Int) ≠ -1 ∧
    setNewRs1 hostBE32 1700000000 sampleRecord samplePointer (-5)
      = setNewRs1 hostBE32 1700000000 sampleRecord samplePointer 0 ∧
    readValidThru hostBE32
      (setNewRs1 hostBE32 1700000000 sampleRecord samplePointer (-5)).rs1Interval = 0 ∧
    isRs1NotExpired hostBE32 0
      (setNewRs1 hostBE32 1700000000 sampleRecord samplePointer (-5)) = false :=
  ⟨by decide, by decide,
    ((C23_non_positive_expire hostBE32 1700000000 0 sampleRecord samplePointer (-5)).1
      (by decide) (by decide)).1,
    ((C23_non_positive_expire hostBE32 1700000000 0 sampleRecord samplePointer (-5)).1
      (by decide) (by decide)).2.1,
    ((C23_non_positive_expire hostBE32 1700000000 0 sampleRecord samplePointer (-5)).1
      (by decide) (by decide)).2.2.2⟩

end ZRTP
